import Mathlib

/-! Coroutine stacks of the HotSpot coroutine runtime (`share/vm/runtime/coroutine.cpp`).

A shallow embedding of `Coroutine` and `CoroutineStack`.

* Machine addresses and machine words are natural numbers; `0` is `NULL`.
  Raw memory is word granular: `mem a` is the word stored at the (aligned)
  address `a`.
* Objects allocated with `new` live in heaps indexed by their address.
* Calls into collaborators whose code is not part of `coroutine.cpp`
  (virtual memory, thread-local storage, JNI handles, frame visitors) are
  recorded, in program order, in `World.trace`; what they return is read from
  an `Oracle`.
-/

namespace CoroutineVM

/-- The null pointer. Machine addresses (`address`, `intptr_t*`, any object
pointer) and machine words are natural numbers. -/
abbrev NULL : Nat := 0

/-! ## Platform constants and flags consumed by the file -/

/-- Platform constants and VM flags read by `coroutine.cpp`; none of them is
defined in the file, so they are parameters of the embedding. -/
structure Platform where
  /-- Value of `_LP64`: pointers and `intptr_t` are 64 bits wide (else 32). -/
  _LP64 : Bool
  /-- Value of `os::vm_page_size()`, a C `int`. -/
  vm_page_size : Int
  /-- Value of `os::vm_allocation_granularity()`, a C `int`. -/
  vm_allocation_granularity : Int
  /-- Flag `StackShadowPages` (`intx`). -/
  StackShadowPages : Int
  /-- Flag `StackRedPages` (`intx`). -/
  StackRedPages : Int
  /-- Flag `StackYellowPages` (`intx`). -/
  StackYellowPages : Int
  /-- Flag `DefaultCoroutineStackSize`, as the `intptr_t` it is assigned to. -/
  DefaultCoroutineStackSize : Int
  /-- Value of `os::uses_stack_guard_pages()`. -/
  uses_stack_guard_pages : Bool
  /-- Value of `os::allocate_stack_guard_pages()`. -/
  allocate_stack_guard_pages : Bool
  /-- The address of the function `coroutine_start`. -/
  coroutine_start : Nat
  /-- Value of `rbp->as_VMReg()`. -/
  rbp_VMReg : Nat

namespace Platform

/-- Value of `sizeof(intptr_t)` in bytes. -/
def wordSize (P : Platform) : Nat := if P._LP64 then 8 else 4

/-- Number of values of a machine word, `2 ^ BitsPerWord`. -/
def addrSpace (P : Platform) : Nat := if P._LP64 then 2 ^ 64 else 2 ^ 32

/-- Conversion of an integer to `uintx` / `size_t` / a pointer. -/
def toUintx (P : Platform) (i : Int) : Nat := (i % (P.addrSpace : Int)).toNat

/-- Pointer plus a byte count, on machine addresses. -/
def ptr_add (P : Platform) (a : Nat) (n : Nat) : Nat := (a + n) % P.addrSpace

/-- Pointer minus a byte count, on machine addresses. -/
def ptr_sub (P : Platform) (a : Nat) (n : Nat) : Nat :=
  (a + (P.addrSpace - n % P.addrSpace)) % P.addrSpace

end Platform

/-- Conversion of an integer to C `uint` (32 bits). -/
def toUint (i : Int) : Nat := (i % (2 ^ 32 : Int)).toNat

/-! ## Data model -/

/-- A `JavaThread`, as far as the file reads it: its identity and the bounds
of its native stack (`stack_base()`, `stack_size()`). -/
structure JavaThread where
  id : Nat
  stack_base : Nat
  stack_size : Nat
deriving DecidableEq, Repr

/-- Modelled from the spec: `Coroutine::CoroutineState` is declared in
`coroutine.hpp`, which is not part of the sources at hand; the spec names the
three states `ON_STACK`, `CURRENT` and `DEAD`. -/
inductive CoroutineState where
  | _onstack
  | _current
  | _dead
deriving DecidableEq, Repr

/-- The fields of a `Coroutine` object that `coroutine.cpp` assigns. -/
structure Coroutine where
  _state : CoroutineState
  _is_thread_coroutine : Bool
  _thread : JavaThread
  /-- Pointer to the `CoroutineStack`. -/
  _stack : Nat
  _resource_area : Nat
  _handle_area : Nat
  _last_handle_mark : Nat
  /-- Only present under `ASSERT`. -/
  _java_call_counter : Int
  /-- Only present under `_WINDOWS`. -/
  _last_SEH : Nat
deriving DecidableEq, Repr

/-- Modelled from the spec: `ReservedSpace` (the "reserved virtual memory
handle") is declared outside the file; it is a base address and a size, with
base `NULL` and size `0` when nothing is reserved. -/
structure ReservedSpace where
  base : Nat
  size : Nat
deriving DecidableEq, Repr

/-- Modelled from the spec: `VirtualSpace` (the "committed virtual memory
handle") is declared outside the file; the committed range is `[low, high)`. -/
structure VirtualSpace where
  low : Nat
  high : Nat
deriving DecidableEq, Repr

/-- Method `VirtualSpace::committed_size()`. -/
def VirtualSpace.committed_size (v : VirtualSpace) : Nat := v.high - v.low

/-- The fields of a `CoroutineStack` object. -/
structure CoroutineStack where
  _thread : JavaThread
  _is_thread_stack : Bool
  _reserved_space : ReservedSpace
  _virtual_space : VirtualSpace
  _stack_base : Nat
  _stack_size : Nat
  _last_sp : Nat
  _default_size : Bool
deriving DecidableEq, Repr

namespace CoroutineStack

/-- Accessor `stack_base()`. -/
def stack_base (s : CoroutineStack) : Nat := s._stack_base

/-- Accessor `stack_size()`. -/
def stack_size (s : CoroutineStack) : Nat := s._stack_size

/-- Accessor `is_thread_stack()`. -/
def is_thread_stack (s : CoroutineStack) : Bool := s._is_thread_stack

/-- Mutator `set_last_sp(address)`. -/
def set_last_sp (s : CoroutineStack) (sp : Nat) : CoroutineStack := { s with _last_sp := sp }

end CoroutineStack

/-- Modelled from the spec: the "frame walker context", a (stack pointer,
frame pointer, program counter) triple as built by `frame(sp, fp, pc)`; class
`frame` is declared outside the file. -/
structure Frame where
  sp : Nat
  fp : Nat
  pc : Nat
deriving DecidableEq, Repr

/-- Modelled from the spec: the "register-location map" handed to a visitor
together with each frame; class `RegisterMap` is declared outside the file.
`location` lists the recorded (register, address) pairs, newest first. -/
structure RegisterMap where
  thread : JavaThread
  update_map : Bool
  include_argument_oops : Bool
  location : List (Nat × Nat)
deriving DecidableEq, Repr

namespace RegisterMap

/-- Constructor `RegisterMap(thread, update)`. -/
def new (thread : JavaThread) (update : Bool) : RegisterMap :=
  { thread := thread, update_map := update, include_argument_oops := true, location := [] }

/-- Mutator `set_location(reg, loc)`. -/
def set_location (m : RegisterMap) (reg : Nat) (loc : Nat) : RegisterMap :=
  { m with location := (reg, loc) :: m.location }

/-- Mutator `set_include_argument_oops(f)`. -/
def set_include_argument_oops (m : RegisterMap) (f : Bool) : RegisterMap :=
  { m with include_argument_oops := f }

end RegisterMap

/-- The messages of `warning(...)` calls in the file. -/
inductive Warning where
  /-- Message "Attempt to protect stack guard pages failed." -/
  | protect_failed
  /-- Message "Attempt to deallocate stack guard pages failed." -/
  | deallocate_failed
deriving DecidableEq, Repr

/-- A call made by `coroutine.cpp` into a collaborator, with its arguments
(and, where the file branches on it, its result). -/
inductive Event where
  /-- Call `ReservedSpace(size)` asked the OS for `size` bytes and got `base`. -/
  | reserve_memory (size : Nat) (base : Nat)
  /-- Call `_virtual_space.initialize(rs, committed)` returned `ok`. -/
  | vs_init (rs : ReservedSpace) (committed : Nat) (ok : Bool)
  /-- Call `_virtual_space.release()`. -/
  | vs_release (vs : VirtualSpace)
  /-- Call `_reserved_space.release()`. -/
  | rs_release (rs : ReservedSpace)
  /-- Call `delete stack`. -/
  | delete_stack (p : Nat)
  /-- Call `os::guard_memory(addr, len)` returned `ok`. -/
  | guard_memory (addr : Nat) (len : Nat) (ok : Bool)
  /-- Call `os::uncommit_memory(addr, len)` returned `ok`. -/
  | uncommit_memory (addr : Nat) (len : Nat) (ok : Bool)
  /-- Call `warning(msg)`. -/
  | warning (msg : Warning)
  /-- Call `ThreadLocalStorage::add_coroutine_stack(thread, base, size)`. -/
  | add_coroutine_stack (thread : JavaThread) (base : Nat) (size : Nat)
  /-- Call `ThreadLocalStorage::remove_coroutine_stack(thread, base, size)`. -/
  | remove_coroutine_stack (thread : JavaThread) (base : Nat) (size : Nat)
  /-- Call `JNIHandles::make_global(obj)` returned `handle`. -/
  | make_global (obj : Nat) (handle : Nat)
  /-- Call `fr->oops_do(f, cld_f, cf, map)`. -/
  | frame_oops_do (fr : Frame) (f cld_f cf : Nat) (map : RegisterMap)
  /-- Call `fr->nmethods_do(cf)`. -/
  | frame_nmethods_do (fr : Frame) (cf : Nat)
  /-- Call `fr->metadata_do(f)`. -/
  | frame_metadata_do (fr : Frame) (f : Nat)
  /-- Call `f(fr, map)` for a plain function pointer `f`. -/
  | frame_function (f : Nat) (fr : Frame) (map : RegisterMap)
  /-- Call `fc->frames_do(fr, map)` for any other `FrameClosure` `fc`. -/
  | frame_closure (fc : Nat) (fr : Frame) (map : RegisterMap)
  /-- Call `_handle_area->oops_do(f)`. -/
  | handle_area_oops_do (area : Nat) (f : Nat)
deriving DecidableEq, Repr

/-- What the collaborators return. The file only branches on these results,
so they are inputs of the embedding. -/
structure Oracle where
  /-- Result of `new Coroutine()` (`NULL` when the allocation fails). -/
  new_Coroutine : Nat
  /-- Result of operator `new` for a `CoroutineStack` (`NULL` on failure). -/
  new_CoroutineStack : Nat
  /-- Base returned by the OS for a reservation of the given size (`NULL` on failure). -/
  reserve_memory : Nat → Nat
  /-- Whether the OS commits the given range. -/
  commit_memory : Nat → Nat → Bool
  /-- Result of `os::guard_memory(addr, len)`. -/
  guard_memory : Nat → Nat → Bool
  /-- Result of `os::uncommit_memory(addr, len)`. -/
  uncommit_memory : Nat → Nat → Bool
  /-- Result of `JNIHandles::make_global(obj)`. -/
  make_global : Nat → Nat

/-- The state the file reads and writes. -/
structure World where
  /-- Raw memory, one word per (aligned) address. -/
  mem : Nat → Nat
  /-- Live `CoroutineStack` objects by address. -/
  stackObjs : Nat → Option CoroutineStack
  /-- Live `Coroutine` objects by address. -/
  coroObjs : Nat → Option Coroutine
  /-- Calls into collaborators so far, oldest first. -/
  trace : List Event

namespace World

/-- Statement `*(intptr_t*)a = v`. -/
def store (w : World) (a : Nat) (v : Nat) : World :=
  { w with mem := fun x => if x = a then v else w.mem x }

/-- Write of the object `*p` of type `CoroutineStack`. -/
def setStack (w : World) (p : Nat) (s : CoroutineStack) : World :=
  { w with stackObjs := fun x => if x = p then some s else w.stackObjs x }

/-- Write of the object `*p` of type `Coroutine`. -/
def setCoroutine (w : World) (p : Nat) (c : Coroutine) : World :=
  { w with coroObjs := fun x => if x = p then some c else w.coroObjs x }

/-- Removal of the object `*p` of type `CoroutineStack` from the heap. -/
def removeStack (w : World) (p : Nat) : World :=
  { w with stackObjs := fun x => if x = p then none else w.stackObjs x }

/-- Record a call into a collaborator. -/
def emit (w : World) (e : Event) : World := { w with trace := w.trace ++ [e] }

end World

/-- Ways in which an operation does not return. -/
inductive Fatal where
  /-- A failed `assert(cond, msg)`. -/
  | assert_failed
  /-- A failed `guarantee(cond, msg)`. -/
  | guarantee_failed
  /-- A pointer that is not the address of a live object was dereferenced. -/
  | bad_pointer
  /-- The fuel of a loop ran out. -/
  | out_of_fuel
deriving DecidableEq, Repr

/-- Outcome of an operation: a failure or the returned value. -/
abbrev Result (α : Type) := Except Fatal α

/-! ## `Coroutine::create_thread_coroutine`, `Coroutine::create_coroutine` -/

/-- Function `Coroutine::create_thread_coroutine(thread, stack)`. -/
def Coroutine.create_thread_coroutine (O : Oracle) (thread : JavaThread) (stack : Nat)
    (w : World) : Nat × World :=
  let coro := O.new_Coroutine
  if coro = NULL then (NULL, w)
  else
    (coro, w.setCoroutine coro
      { _state := CoroutineState._current
        _is_thread_coroutine := true
        _thread := thread
        _stack := stack
        _resource_area := NULL
        _handle_area := NULL
        _last_handle_mark := NULL
        _java_call_counter := 0
        _last_SEH := NULL })

/-- Function `Coroutine::create_coroutine(thread, stack, coroutineObj)`. -/
def Coroutine.create_coroutine (P : Platform) (O : Oracle) (thread : JavaThread) (stack : Nat)
    (coroutineObj : Nat) (w : World) : Result Nat × World :=
  let coro := O.new_Coroutine
  if coro = NULL then (.ok NULL, w)
  else
    match w.stackObjs stack with
    | none => (.error Fatal.bad_pointer, w)
    | some s =>
      let d := s.stack_base
      let d := P.ptr_sub d P.wordSize
      let w := w.store d NULL
      let obj := O.make_global coroutineObj
      let w := w.emit (Event.make_global coroutineObj obj)
      let d := P.ptr_sub d P.wordSize
      let w := w.store d obj
      let d := P.ptr_sub d P.wordSize
      let w := w.store d coro
      let d := P.ptr_sub d P.wordSize
      let w := w.store d P.coroutine_start
      let d := P.ptr_sub d P.wordSize
      let w := w.store d NULL
      let d := P.ptr_sub d P.wordSize
      let w := w.store d NULL
      let w := w.setStack stack (s.set_last_sp d)
      (.ok coro, w.setCoroutine coro
        { _state := CoroutineState._onstack
          _is_thread_coroutine := false
          _thread := thread
          _stack := stack
          _resource_area := NULL
          _handle_area := NULL
          _last_handle_mark := NULL
          _java_call_counter := 0
          _last_SEH := NULL })

/-! ## Frame visitors -/

/-- The `FrameClosure` subclasses: the four defined in the file, and any
other, identified by its address. -/
inductive FrameClosure where
  | oops_do_Closure (f cld_f cf : Nat)
  | nmethods_do_Closure (cf : Nat)
  | metadata_do_Closure (f : Nat)
  | frames_do_Closure (f : Nat)
  | other (fc : Nat)
deriving DecidableEq, Repr

/-- The virtual call `fc->frames_do(fr, map)`: the call each closure class
makes on the frame. -/
def FrameClosure.frames_do : FrameClosure → Frame → RegisterMap → Event
  | .oops_do_Closure f cld_f cf, fr, map => Event.frame_oops_do fr f cld_f cf map
  | .nmethods_do_Closure cf, fr, _ => Event.frame_nmethods_do fr cf
  | .metadata_do_Closure f, fr, _ => Event.frame_metadata_do fr f
  | .frames_do_Closure f, fr, map => Event.frame_function f fr map
  | .other fc, fr, map => Event.frame_closure fc fr map

/-- The two methods of class `frame` the frame stream relies on; they are
platform code outside the file, hence parameters. -/
structure FrameModel where
  /-- Method `frame::is_first_frame()`. -/
  is_first_frame : Frame → Bool
  /-- Method `frame::sender(&map)`: the caller's frame and the updated map. -/
  sender : Frame → RegisterMap → Frame × RegisterMap

/-- Modelled from the spec: `StackFrameStream`, declared outside the file, the
cursor that "iterates native frames outward (callee to caller) until
exhausted"; the walk is exhausted once the first (outermost) frame has been
visited. -/
structure StackFrameStream where
  _fr : Frame
  _reg_map : RegisterMap
  _is_done : Bool
deriving DecidableEq, Repr

namespace StackFrameStream

/-- Constructor `StackFrameStream(thread, last_frame)`. -/
def new (thread : JavaThread) (last_frame : Frame) : StackFrameStream :=
  { _fr := last_frame, _reg_map := RegisterMap.new thread true, _is_done := false }

/-- Method `is_done()`: reports whether the walk is over and, if not, notes
whether the current frame is the last one to visit. -/
def is_done (F : FrameModel) (s : StackFrameStream) : Bool × StackFrameStream :=
  if s._is_done then (true, s) else (false, { s with _is_done := F.is_first_frame s._fr })

/-- Method `next()`: moves to the sender of the current frame. -/
def next (F : FrameModel) (s : StackFrameStream) : StackFrameStream :=
  if s._is_done then s
  else
    let r := F.sender s._fr s._reg_map
    { s with _fr := r.1, _reg_map := r.2 }

/-- Method `current()`. -/
def current (s : StackFrameStream) : Frame := s._fr

/-- Method `register_map()`. -/
def register_map (s : StackFrameStream) : RegisterMap := s._reg_map

end StackFrameStream

/-! ## `CoroutineStack` -/

namespace CoroutineStack

/-- Modelled from the spec: the constructor `ReservedSpace(size)` "reserves
that virtual memory range"; a size of `0` reserves nothing, and a failed
reservation leaves base `NULL` and size `0`. -/
def reserve (O : Oracle) (size : Nat) (w : World) : ReservedSpace × World :=
  if size = 0 then ({ base := NULL, size := 0 }, w)
  else
    let base := O.reserve_memory size
    ({ base := base, size := if base = NULL then 0 else size },
      w.emit (Event.reserve_memory size base))

/-- Modelled from the spec: `VirtualSpace::initialize(rs, committed_size)`
"commits" the first `committed_size` bytes of the reserved range and reports
failure when the range is not reserved, is too small, or the OS refuses to
commit. -/
def vs_init (O : Oracle) (rs : ReservedSpace) (committed_size : Nat) : Bool × VirtualSpace :=
  if rs.base = NULL then (false, { low := NULL, high := NULL })
  else if committed_size = 0 then (true, { low := rs.base, high := rs.base })
  else if rs.size < committed_size then (false, { low := rs.base, high := rs.base })
  else if O.commit_memory rs.base committed_size then
    (true, { low := rs.base, high := rs.base + committed_size })
  else (false, { low := rs.base, high := rs.base })

/-- Modelled from the spec: `align_size_up(size, alignment)` "rounds up to the
platform's allocation granularity"; it is declared outside the file. -/
def align_size_up (P : Platform) (size : Nat) (alignment : Int) : Nat :=
  if alignment ≤ 0 then size
  else P.toUintx ((((size : Int) + alignment - 1) / alignment) * alignment)

/-- The object built by `new CoroutineStack(size)`: the constructor only
initialises `_reserved_space`; the other fields are assigned by the caller. -/
def construct (rs : ReservedSpace) : CoroutineStack :=
  { _thread := { id := 0, stack_base := NULL, stack_size := 0 }
    _is_thread_stack := false
    _reserved_space := rs
    _virtual_space := { low := NULL, high := NULL }
    _stack_base := NULL
    _stack_size := 0
    _last_sp := NULL
    _default_size := false }

/-- Function `CoroutineStack::create_thread_stack(thread)`. -/
def create_thread_stack (O : Oracle) (thread : JavaThread) (w : World) : Nat × World :=
  let stack := O.new_CoroutineStack
  if stack = NULL then (NULL, w)
  else
    let r := reserve O 0 w
    let obj := construct r.1
    let w := r.2
    let obj := { obj with
      _thread := thread
      _is_thread_stack := true
      _stack_base := thread.stack_base
      _stack_size := thread.stack_size
      _last_sp := NULL
      _default_size := false }
    (stack, w.setStack stack obj)

/-- The local `reserved_pages` of `create_stack`, a C `uint`. -/
def reserved_pages (P : Platform) : Nat :=
  toUint (P.StackShadowPages + P.StackRedPages + P.StackYellowPages)

/-- The local `real_stack_size` of `create_stack`, a `uintx`:
`size + (reserved_pages * os::vm_page_size())`, the product being a C `uint`. -/
def real_stack_size (P : Platform) (size : Int) : Nat :=
  P.toUintx (size + (toUint ((reserved_pages P : Int) * P.vm_page_size) : Int))

/-- The local `len` of `create_stack`, a `size_t`:
`(StackYellowPages + StackRedPages) * os::vm_page_size()`. -/
def guard_len (P : Platform) : Nat :=
  P.toUintx ((P.StackYellowPages + P.StackRedPages) * P.vm_page_size)

/-- The block guarded by `os::uses_stack_guard_pages()` in `create_stack`. -/
def protect_guard_pages (P : Platform) (O : Oracle) (stack : CoroutineStack) (w : World) : World :=
  if P.uses_stack_guard_pages then
    let low_addr := P.ptr_sub stack.stack_base stack.stack_size
    let len := guard_len P
    let ok := O.guard_memory low_addr len
    let w := w.emit (Event.guard_memory low_addr len ok)
    if !ok then
      let w := w.emit (Event.warning Warning.protect_failed)
      let ok2 := O.uncommit_memory low_addr len
      let w := w.emit (Event.uncommit_memory low_addr len ok2)
      if ok2 then w.emit (Event.warning Warning.deallocate_failed) else w
    else w
  else w

/-- Function `CoroutineStack::create_stack(thread, size)`. -/
def create_stack (P : Platform) (O : Oracle) (thread : JavaThread) (size : Int) (w : World) :
    Nat × World :=
  let default_size := decide (size ≤ 0)
  let size := if size ≤ 0 then P.DefaultCoroutineStackSize else size
  let real_stack_size := real_stack_size P size
  let reserved_size := align_size_up P real_stack_size P.vm_allocation_granularity
  let stack := O.new_CoroutineStack
  if stack = NULL then (NULL, w)
  else
    let r := reserve O reserved_size w
    let obj := construct r.1
    let w := r.2
    let i := vs_init O obj._reserved_space real_stack_size
    let w := w.emit (Event.vs_init obj._reserved_space real_stack_size i.1)
    if !i.1 then
      let w := w.emit (Event.rs_release obj._reserved_space)
      let w := w.emit (Event.delete_stack stack)
      (NULL, w)
    else
      let obj := { obj with
        _virtual_space := i.2
        _thread := thread
        _is_thread_stack := false
        _stack_base := i.2.high
        _stack_size := i.2.committed_size
        _last_sp := NULL
        _default_size := default_size }
      let w := protect_guard_pages P O obj w
      let w := w.emit (Event.add_coroutine_stack thread obj.stack_base obj.stack_size)
      (stack, w.setStack stack obj)

/-- Function `CoroutineStack::free_stack(stack, thread)`. -/
def free_stack (stack : Nat) (thread : JavaThread) (w : World) : Result Unit × World :=
  match w.stackObjs stack with
  | none => (.error Fatal.bad_pointer, w)
  | some s =>
    if s.is_thread_stack then (.error Fatal.guarantee_failed, w)
    else
      let w := w.emit (Event.remove_coroutine_stack thread s.stack_base s.stack_size)
      let w :=
        if s._reserved_space.size > 0 then
          (w.emit (Event.vs_release s._virtual_space)).emit (Event.rs_release s._reserved_space)
        else w
      let w := w.emit (Event.delete_stack stack)
      (.ok (), w.removeStack stack)

/-- The loop `for(; !fst.is_done(); fst.next()) fc->frames_do(fst.current(), fst.register_map())`;
`fuel` bounds the number of tests of the loop condition. -/
def frames_loop (F : FrameModel) (fc : FrameClosure) :
    Nat → StackFrameStream → World → Result Unit × World
  | 0, _, w => (.error Fatal.out_of_fuel, w)
  | fuel + 1, fst, w =>
    let t := fst.is_done F
    if t.1 then (.ok (), w)
    else
      let fst := t.2
      let w := w.emit (fc.frames_do fst.current fst.register_map)
      frames_loop F fc fuel (fst.next F) w

/-- Method `CoroutineStack::frames_do(fc)`. -/
def frames_do (P : Platform) (F : FrameModel) (fuel : Nat) (this : CoroutineStack)
    (fc : FrameClosure) (w : World) : Result Unit × World :=
  if this._last_sp = NULL then (.error Fatal.assert_failed, w)
  else
    let fp := w.mem this._last_sp
    if fp ≠ NULL then
      let pc := w.mem (P.ptr_add this._last_sp P.wordSize)
      let sp := P.ptr_add this._last_sp (2 * P.wordSize)
      let fr : Frame := { sp := sp, fp := fp, pc := pc }
      let fst := StackFrameStream.new this._thread fr
      let fst := { fst with _reg_map := fst.register_map.set_location P.rbp_VMReg this._last_sp }
      let fst := { fst with _reg_map := fst.register_map.set_include_argument_oops false }
      frames_loop F fc fuel fst w
    else (.ok (), w)

/-- Method `CoroutineStack::last_frame(coro, map)`. -/
def last_frame (P : Platform) (this : CoroutineStack) (_coro : Nat) (_map : RegisterMap)
    (w : World) : Result Frame :=
  let fp := w.mem this._last_sp
  if fp = NULL then .error Fatal.assert_failed
  else
    let pc := w.mem (P.ptr_add this._last_sp P.wordSize)
    let sp := P.ptr_add this._last_sp (2 * P.wordSize)
    .ok { sp := sp, fp := fp, pc := pc }

end CoroutineStack

/-! ## `Coroutine` -/

namespace Coroutine

/-- Method `Coroutine::frames_do(FrameClosure* fc)`. -/
def frames_do (P : Platform) (F : FrameModel) (fuel : Nat) (this : Coroutine)
    (fc : FrameClosure) (w : World) : Result Unit × World :=
  match this._state with
  | CoroutineState._current => (.ok (), w)
  | CoroutineState._onstack =>
    match w.stackObjs this._stack with
    | none => (.error Fatal.bad_pointer, w)
    | some s => s.frames_do P F fuel fc w
  | CoroutineState._dead => (.ok (), w)

/-- Method `Coroutine::oops_do(f, cld_f, cf)`. -/
def oops_do (P : Platform) (F : FrameModel) (fuel : Nat) (this : Coroutine)
    (f cld_f cf : Nat) (w : World) : Result Unit × World :=
  let fc := FrameClosure.oops_do_Closure f cld_f cf
  match this.frames_do P F fuel fc w with
  | (.error e, w) => (.error e, w)
  | (.ok (), w) =>
    if this._state = CoroutineState._onstack ∧ this._handle_area ≠ NULL then
      (.ok (), w.emit (Event.handle_area_oops_do this._handle_area f))
    else (.ok (), w)

/-- Method `Coroutine::nmethods_do(cf)`. -/
def nmethods_do (P : Platform) (F : FrameModel) (fuel : Nat) (this : Coroutine)
    (cf : Nat) (w : World) : Result Unit × World :=
  this.frames_do P F fuel (FrameClosure.nmethods_do_Closure cf) w

/-- Method `Coroutine::metadata_do(f)`. -/
def metadata_do (P : Platform) (F : FrameModel) (fuel : Nat) (this : Coroutine)
    (f : Nat) (w : World) : Result Unit × World :=
  this.frames_do P F fuel (FrameClosure.metadata_do_Closure f) w

/-- Method `Coroutine::is_disposable()`. -/
def is_disposable (_this : Coroutine) : Bool := false

end Coroutine

/-! ## Values and call sequences of `create_stack`, for the statements below -/

namespace CoroutineStack

/-- The value of the parameter `size` of `create_stack` after the test
`size <= 0`. -/
def requested_size (P : Platform) (size : Int) : Int :=
  if size ≤ 0 then P.DefaultCoroutineStackSize else size

/-- The value of the local `reserved_size` of `create_stack`. -/
def reserved_size (P : Platform) (size : Int) : Nat :=
  align_size_up P (real_stack_size P (requested_size P size)) P.vm_allocation_granularity

/-- The `ReservedSpace` obtained by `new CoroutineStack(reserved_size)`. -/
def reservation (P : Platform) (O : Oracle) (size : Int) : ReservedSpace :=
  if reserved_size P size = 0 then { base := NULL, size := 0 }
  else
    { base := O.reserve_memory (reserved_size P size)
      size := if O.reserve_memory (reserved_size P size) = NULL then 0 else reserved_size P size }

/-- The calls made by the constructor `ReservedSpace(reserved_size)`. -/
def reserve_events (P : Platform) (O : Oracle) (size : Int) : List Event :=
  if reserved_size P size = 0 then []
  else [Event.reserve_memory (reserved_size P size) (O.reserve_memory (reserved_size P size))]

/-- Whether reservation and commit both succeed in `create_stack`: the result
of `_virtual_space.initialize(_reserved_space, real_stack_size)`. -/
def commit_ok (P : Platform) (O : Oracle) (size : Int) : Bool :=
  (vs_init O (reservation P O size) (real_stack_size P (requested_size P size))).1

/-- The region `create_stack` builds when reservation and commit succeed. -/
def created_region (P : Platform) (O : Oracle) (thread : JavaThread) (size : Int) :
    CoroutineStack :=
  { _thread := thread
    _is_thread_stack := false
    _reserved_space := reservation P O size
    _virtual_space :=
      (vs_init O (reservation P O size) (real_stack_size P (requested_size P size))).2
    _stack_base :=
      (vs_init O (reservation P O size) (real_stack_size P (requested_size P size))).2.high
    _stack_size :=
      (vs_init O (reservation P O size)
        (real_stack_size P (requested_size P size))).2.committed_size
    _last_sp := NULL
    _default_size := decide (size ≤ 0) }

/-- The calls made by the guard-page block of `create_stack` on region `stack`. -/
def guard_events (P : Platform) (O : Oracle) (stack : CoroutineStack) : List Event :=
  if P.uses_stack_guard_pages then
    if O.guard_memory (P.ptr_sub stack._stack_base stack._stack_size) (guard_len P) then
      [Event.guard_memory (P.ptr_sub stack._stack_base stack._stack_size) (guard_len P) true]
    else if O.uncommit_memory (P.ptr_sub stack._stack_base stack._stack_size) (guard_len P) then
      [Event.guard_memory (P.ptr_sub stack._stack_base stack._stack_size) (guard_len P) false,
       Event.warning Warning.protect_failed,
       Event.uncommit_memory (P.ptr_sub stack._stack_base stack._stack_size) (guard_len P) true,
       Event.warning Warning.deallocate_failed]
    else
      [Event.guard_memory (P.ptr_sub stack._stack_base stack._stack_size) (guard_len P) false,
       Event.warning Warning.protect_failed,
       Event.uncommit_memory (P.ptr_sub stack._stack_base stack._stack_size) (guard_len P) false]
  else []

end CoroutineStack

/-- The oracle `O` with `os::guard_memory` answering `ok` on every range. -/
def Oracle.withGuard (O : Oracle) (ok : Bool) : Oracle :=
  { O with guard_memory := fun _ _ => ok }

/-- Whether an event is a call of `os::guard_memory`. -/
def Event.isGuard : Event → Bool
  | .guard_memory _ _ _ => true
  | _ => false

/-- Whether an event is a call of `ThreadLocalStorage::add_coroutine_stack`
or `ThreadLocalStorage::remove_coroutine_stack`. -/
def Event.isRegistry : Event → Bool
  | .add_coroutine_stack _ _ _ => true
  | .remove_coroutine_stack _ _ _ => true
  | _ => false

/-! ## The frame stream as the spec describes it, for the statements below -/

/-- The spec's reading of the saved context of a region: "sp = last_sp + 2
words, fp = word at last_sp[0], pc = word at last_sp[1]", in plain arithmetic. -/
def CoroutineStack.saved_frame (P : Platform) (this : CoroutineStack) (w : World) : Frame :=
  { sp := this._last_sp + 2 * P.wordSize
    fp := w.mem this._last_sp
    pc := w.mem (this._last_sp + P.wordSize) }

/-- The register map a walk of the region starts with: the map of a fresh
stream, with the location of `rbp` set to `last_sp` and argument oops left out. -/
def CoroutineStack.saved_map (P : Platform) (this : CoroutineStack) : RegisterMap :=
  { thread := this._thread
    update_map := true
    include_argument_oops := false
    location := [(P.rbp_VMReg, this._last_sp)] }

/-- The frames of the stream that starts at `fr`, callee to caller: `fr`
itself followed by `n` senders, each with the register map it is visited with. -/
def FrameModel.stream_frames (F : FrameModel) : Nat → Frame → RegisterMap →
    List (Frame × RegisterMap)
  | 0, fr, m => [(fr, m)]
  | n + 1, fr, m => (fr, m) :: F.stream_frames n (F.sender fr m).1 (F.sender fr m).2

/-- Whether the stream that starts at `fr` is exhausted after exactly `n`
senders: the `n`-th sender is the first frame, and no frame before it is. -/
def FrameModel.stream_ends (F : FrameModel) : Nat → Frame → RegisterMap → Bool
  | 0, fr, _ => F.is_first_frame fr
  | n + 1, fr, m =>
    !F.is_first_frame fr && F.stream_ends n (F.sender fr m).1 (F.sender fr m).2

/-- Whether an event is a call of `warning`. -/
def Event.isWarning : Event → Bool
  | .warning _ => true
  | _ => false

/-- Whether an event is a successful call of `os::guard_memory`, that is, the
protection of a band as inaccessible. -/
def Event.isProtection : Event → Bool
  | .guard_memory _ _ ok => ok
  | _ => false

/-- Whether an event is a walk of a handle arena. -/
def Event.isHandleArea : Event → Bool
  | .handle_area_oops_do _ _ => true
  | _ => false

/-! ## A concrete configuration

A 64-bit platform with 4 KiB pages, one shadow, one red and two yellow pages,
and a world holding one coroutine stack object at address `100` whose region
is `[4096, 8192)`. -/

/-- A 64-bit platform with 4 KiB pages. -/
def exPlatform : Platform :=
  { _LP64 := true
    vm_page_size := 4096
    vm_allocation_granularity := 4096
    StackShadowPages := 1
    StackRedPages := 1
    StackYellowPages := 2
    DefaultCoroutineStackSize := 65536
    uses_stack_guard_pages := true
    allocate_stack_guard_pages := true
    coroutine_start := 7777
    rbp_VMReg := 10 }

/-- Collaborators that succeed: objects are allocated at `500` and `100`,
memory is reserved at `1048576`, the handle of object `x` is `x + 1`. -/
def exOracle : Oracle :=
  { new_Coroutine := 500
    new_CoroutineStack := 100
    reserve_memory := fun _ => 1048576
    commit_memory := fun _ _ => true
    guard_memory := fun _ _ => true
    uncommit_memory := fun _ _ => true
    make_global := fun x => x + 1 }

/-- A carrier thread. -/
def exThread : JavaThread := { id := 1, stack_base := 900000, stack_size := 65536 }

/-- A coroutine stack region `[4096, 8192)` that was never used. -/
def exStack : CoroutineStack :=
  { _thread := exThread
    _is_thread_stack := false
    _reserved_space := { base := 4096, size := 4096 }
    _virtual_space := { low := 4096, high := 8192 }
    _stack_base := 8192
    _stack_size := 4096
    _last_sp := NULL
    _default_size := false }

/-- A world whose memory holds `9` everywhere and whose only object is
`exStack`, at address `100`. -/
def exWorld : World :=
  { mem := fun _ => 9
    stackObjs := fun p => if p = 100 then some exStack else none
    coroObjs := fun _ => none
    trace := [] }

/-- A frame model for the examples: the sender of a frame lies 32 bytes
higher, and a frame is the first one when its frame pointer is at least `8190`. -/
def exFrames : FrameModel :=
  { is_first_frame := fun fr => decide (8190 ≤ fr.fp)
    sender := fun fr m => ({ sp := fr.sp + 32, fp := fr.fp + 32, pc := fr.pc + 1 }, m) }

/-- A coroutine on the stack object at `100`, in the given state and with the
given handle arena. -/
def exCoroutine (st : CoroutineState) (handle_area : Nat) : Coroutine :=
  { _state := st
    _is_thread_coroutine := false
    _thread := exThread
    _stack := 100
    _resource_area := NULL
    _handle_area := handle_area
    _last_handle_mark := NULL
    _java_call_counter := 0
    _last_SEH := NULL }

/-- Collaborators like `exOracle`, except that the OS refuses to commit. -/
def exOracleNoCommit : Oracle := { exOracle with commit_memory := fun _ _ => false }

/-- Collaborators like `exOracle`, except that operator `new` returns `NULL`
for the `CoroutineStack`. -/
def exOracleNoObject : Oracle := { exOracle with new_CoroutineStack := NULL }

/-- A region parked at `last_sp = 8000`. -/
def exParked : CoroutineStack := { exStack with _last_sp := 8000 }

/-- A world in which the region `exParked`, at address `100`, has the saved
frame pointer `8150` at `8000` and the saved return address `4242` at `8008`. -/
def exParkedWorld : World :=
  { mem := fun a => if a = 8000 then 8150 else if a = 8008 then 4242 else 0
    stackObjs := fun p => if p = 100 then some exParked else none
    coroObjs := fun _ => none
    trace := [] }

/-! ## Auxiliary facts on machine arithmetic -/

theorem wordSize_pos (P : Platform) : 0 < P.wordSize := by
  unfold Platform.wordSize; split <;> decide

theorem ptr_sub_eq (P : Platform) (a n : Nat) (hn : n ≤ a) (ha : a < P.addrSpace) :
    P.ptr_sub a n = a - n := by
  unfold Platform.ptr_sub
  have hn2 : n < P.addrSpace := by omega
  rw [Nat.mod_eq_of_lt hn2]
  have h : a + (P.addrSpace - n) = (a - n) + P.addrSpace := by omega
  rw [h, Nat.add_mod_right, Nat.mod_eq_of_lt (by omega)]

theorem ptr_add_eq (P : Platform) (a n : Nat) (h : a + n < P.addrSpace) :
    P.ptr_add a n = a + n := by
  unfold Platform.ptr_add
  exact Nat.mod_eq_of_lt h

/-- The guard-page block only appends its calls to the trace. -/
theorem protect_guard_pages_eq (P : Platform) (O : Oracle) (stack : CoroutineStack) (w : World) :
    CoroutineStack.protect_guard_pages P O stack w =
      { w with trace := w.trace ++ CoroutineStack.guard_events P O stack } := by
  unfold CoroutineStack.protect_guard_pages CoroutineStack.guard_events
  simp only [CoroutineStack.stack_base, CoroutineStack.stack_size, World.emit]
  cases P.uses_stack_guard_pages
  · simp
  · cases O.guard_memory (P.ptr_sub stack._stack_base stack._stack_size)
        (CoroutineStack.guard_len P)
    · cases O.uncommit_memory (P.ptr_sub stack._stack_base stack._stack_size)
          (CoroutineStack.guard_len P) <;> simp
    · simp

/-- The constructor `ReservedSpace(reserved_size)` inside `create_stack`. -/
theorem reserve_eq (P : Platform) (O : Oracle) (size : Int) (w : World) :
    CoroutineStack.reserve O (CoroutineStack.reserved_size P size) w =
      (CoroutineStack.reservation P O size,
        { w with trace := w.trace ++ CoroutineStack.reserve_events P O size }) := by
  unfold CoroutineStack.reserve CoroutineStack.reservation CoroutineStack.reserve_events
  by_cases h : CoroutineStack.reserved_size P size = 0
  · simp [h]
  · simp [h, World.emit]

/-- When the wrapper object cannot be allocated `create_stack` does nothing. -/
theorem create_stack_no_object (P : Platform) (O : Oracle) (thread : JavaThread) (size : Int)
    (w : World) (hnew : O.new_CoroutineStack = NULL) :
    CoroutineStack.create_stack P O thread size w = (NULL, w) := by
  simp only [CoroutineStack.create_stack, hnew, if_true]

/-- The result of `create_stack` when reservation or commit fails. -/
theorem create_stack_no_memory (P : Platform) (O : Oracle) (thread : JavaThread) (size : Int)
    (w : World) (hnew : O.new_CoroutineStack ≠ NULL)
    (hfail : CoroutineStack.commit_ok P O size = false) :
    CoroutineStack.create_stack P O thread size w =
      (NULL, { w with trace := w.trace ++ (CoroutineStack.reserve_events P O size ++
        [Event.vs_init (CoroutineStack.reservation P O size)
            (CoroutineStack.real_stack_size P (CoroutineStack.requested_size P size)) false,
          Event.rs_release (CoroutineStack.reservation P O size),
          Event.delete_stack O.new_CoroutineStack]) }) := by
  unfold CoroutineStack.commit_ok at hfail
  have hr := reserve_eq P O size w
  unfold CoroutineStack.reserved_size CoroutineStack.requested_size at hr
  unfold CoroutineStack.requested_size at hfail
  simp only [CoroutineStack.create_stack, if_neg hnew, hr, CoroutineStack.construct, hfail,
    World.emit, CoroutineStack.requested_size]
  simp

/-- The result of `create_stack` when reservation and commit succeed. -/
theorem create_stack_success (P : Platform) (O : Oracle) (thread : JavaThread) (size : Int)
    (w : World) (hnew : O.new_CoroutineStack ≠ NULL)
    (hok : CoroutineStack.commit_ok P O size = true) :
    CoroutineStack.create_stack P O thread size w =
      (O.new_CoroutineStack,
        { mem := w.mem
          stackObjs := fun x =>
            if x = O.new_CoroutineStack then
              some (CoroutineStack.created_region P O thread size)
            else w.stackObjs x
          coroObjs := w.coroObjs
          trace := w.trace ++ (CoroutineStack.reserve_events P O size ++
            [Event.vs_init (CoroutineStack.reservation P O size)
              (CoroutineStack.real_stack_size P (CoroutineStack.requested_size P size)) true] ++
            CoroutineStack.guard_events P O (CoroutineStack.created_region P O thread size) ++
            [Event.add_coroutine_stack thread
              (CoroutineStack.created_region P O thread size)._stack_base
              (CoroutineStack.created_region P O thread size)._stack_size]) }) := by
  unfold CoroutineStack.commit_ok at hok
  have hr := reserve_eq P O size w
  unfold CoroutineStack.reserved_size CoroutineStack.requested_size at hr
  unfold CoroutineStack.requested_size at hok
  simp only [CoroutineStack.create_stack, if_neg hnew, hr, CoroutineStack.construct, hok,
    World.emit, CoroutineStack.requested_size, protect_guard_pages_eq, World.setStack,
    CoroutineStack.stack_base, CoroutineStack.stack_size, CoroutineStack.created_region]
  simp

/-- A successful commit covers exactly the requested bytes, from the base of
the reservation upward. -/
theorem vs_init_ok (O : Oracle) (rs : ReservedSpace) (c : Nat)
    (h : (CoroutineStack.vs_init O rs c).1 = true) :
    rs.base ≠ NULL ∧
      (CoroutineStack.vs_init O rs c).2 = { low := rs.base, high := rs.base + c } := by
  unfold CoroutineStack.vs_init at h ⊢
  by_cases h1 : rs.base = NULL
  · simp [h1] at h
  · by_cases h2 : c = 0
    · simp [h1, h2]
    · by_cases h3 : rs.size < c
      · simp [h1, h2, h3] at h
      · by_cases h4 : O.commit_memory rs.base c = true
        · simp [h1, h2, h3, h4]
        · simp [h1, h2, h3, h4] at h

/-- The committed size of a region built by `create_stack` is the machine
value of `real_stack_size`. -/
theorem created_region_size (P : Platform) (O : Oracle) (thread : JavaThread) (size : Int)
    (hok : CoroutineStack.commit_ok P O size = true) :
    (CoroutineStack.created_region P O thread size)._stack_size =
      CoroutineStack.real_stack_size P (CoroutineStack.requested_size P size) ∧
    (CoroutineStack.created_region P O thread size)._stack_base =
      (CoroutineStack.reservation P O size).base +
        CoroutineStack.real_stack_size P (CoroutineStack.requested_size P size) ∧
    (CoroutineStack.reservation P O size).base ≠ NULL := by
  unfold CoroutineStack.commit_ok at hok
  have h := vs_init_ok O _ _ hok
  simp only [CoroutineStack.created_region, h.2, VirtualSpace.committed_size]
  exact ⟨by omega, trivial, h.1⟩

theorem reserve_events_no_guard (P : Platform) (O : Oracle) (size : Int) :
    (CoroutineStack.reserve_events P O size).filter Event.isGuard = [] := by
  unfold CoroutineStack.reserve_events
  split <;> simp [Event.isGuard]

theorem reserve_events_no_registry (P : Platform) (O : Oracle) (size : Int) :
    (CoroutineStack.reserve_events P O size).filter Event.isRegistry = [] := by
  unfold CoroutineStack.reserve_events
  split <;> simp [Event.isRegistry]

theorem guard_events_no_registry (P : Platform) (O : Oracle) (stack : CoroutineStack) :
    (CoroutineStack.guard_events P O stack).filter Event.isRegistry = [] := by
  unfold CoroutineStack.guard_events
  split_ifs <;> simp [Event.isRegistry]

/-- With guard pages in use the guard-page block calls `os::guard_memory`
exactly once. -/
theorem guard_events_guard (P : Platform) (O : Oracle) (stack : CoroutineStack)
    (hguard : P.uses_stack_guard_pages = true) :
    (CoroutineStack.guard_events P O stack).filter Event.isGuard =
      [Event.guard_memory (P.ptr_sub stack._stack_base stack._stack_size)
        (CoroutineStack.guard_len P)
        (O.guard_memory (P.ptr_sub stack._stack_base stack._stack_size)
          (CoroutineStack.guard_len P))] := by
  unfold CoroutineStack.guard_events
  simp only [hguard, if_true]
  split_ifs with h1 h2
  · simp [Event.isGuard, h1]
  · simp [Event.isGuard, h1]
  · simp [Event.isGuard, h1]

/-- A non-null result of `create_stack` means that the wrapper object was
allocated and that reservation and commit succeeded. -/
theorem create_stack_nonnull (P : Platform) (O : Oracle) (thread : JavaThread) (size : Int)
    (w : World) (hret : (CoroutineStack.create_stack P O thread size w).1 ≠ NULL) :
    O.new_CoroutineStack ≠ NULL ∧ CoroutineStack.commit_ok P O size = true := by
  by_cases hnew : O.new_CoroutineStack = NULL
  · rw [create_stack_no_object P O thread size w hnew] at hret
    exact absurd rfl hret
  · cases hc : CoroutineStack.commit_ok P O size
    · rw [create_stack_no_memory P O thread size w hnew hc] at hret
      exact absurd rfl hret
    · exact ⟨hnew, rfl⟩

/-- The value of the stack cursor `d` of `create_coroutine` after `k` decrements. -/
theorem ptr_sub_iter (P : Platform) (B k : Nat) (hk : (k + 1) * P.wordSize ≤ B)
    (hB : B < P.addrSpace) :
    P.ptr_sub (B - k * P.wordSize) P.wordSize = B - (k + 1) * P.wordSize := by
  have hmul : (k + 1) * P.wordSize = k * P.wordSize + P.wordSize := by ring
  rw [hmul] at hk ⊢
  clear hmul
  generalize k * P.wordSize = m at hk ⊢
  rw [ptr_sub_eq P _ _ (by omega) (by omega)]
  omega

/-- The world left by a successful `create_coroutine`, with the pointer
arithmetic carried out. -/
theorem create_coroutine_eq (P : Platform) (O : Oracle) (thread : JavaThread) (stack : Nat)
    (coroutineObj : Nat) (w : World) (s : CoroutineStack)
    (hs : w.stackObjs stack = some s) (hnew : O.new_Coroutine ≠ NULL)
    (hroom : 6 * P.wordSize ≤ s._stack_base) (hrange : s._stack_base < P.addrSpace) :
    Coroutine.create_coroutine P O thread stack coroutineObj w =
      (.ok O.new_Coroutine,
        ((((((((w.store (s._stack_base - P.wordSize) NULL).emit
          (Event.make_global coroutineObj (O.make_global coroutineObj))).store
          (s._stack_base - 2 * P.wordSize) (O.make_global coroutineObj)).store
          (s._stack_base - 3 * P.wordSize) O.new_Coroutine).store
          (s._stack_base - 4 * P.wordSize) P.coroutine_start).store
          (s._stack_base - 5 * P.wordSize) NULL).store
          (s._stack_base - 6 * P.wordSize) NULL).setStack stack
          (s.set_last_sp (s._stack_base - 6 * P.wordSize))).setCoroutine O.new_Coroutine
          { _state := CoroutineState._onstack
            _is_thread_coroutine := false
            _thread := thread
            _stack := stack
            _resource_area := NULL
            _handle_area := NULL
            _last_handle_mark := NULL
            _java_call_counter := 0
            _last_SEH := NULL }) := by
  have e1 := ptr_sub_iter P s._stack_base 0 (by omega) hrange
  have e2 := ptr_sub_iter P s._stack_base 1 (by omega) hrange
  have e3 := ptr_sub_iter P s._stack_base 2 (by omega) hrange
  have e4 := ptr_sub_iter P s._stack_base 3 (by omega) hrange
  have e5 := ptr_sub_iter P s._stack_base 4 (by omega) hrange
  have e6 := ptr_sub_iter P s._stack_base 5 (by omega) hrange
  simp only [Nat.zero_mul, Nat.sub_zero, Nat.zero_add, Nat.one_mul, Nat.reduceAdd] at e1 e2 e3 e4 e5 e6
  unfold Coroutine.create_coroutine
  simp only [hs, if_neg hnew, CoroutineStack.stack_base, e1, e2, e3, e4, e5, e6]

/-- The loop of `frames_do` visits the frames of the stream, in order, once
each, and then returns. -/
theorem frames_loop_walk (F : FrameModel) (fc : FrameClosure) :
    ∀ (n fuel : Nat) (fr : Frame) (m : RegisterMap) (w : World),
      F.stream_ends n fr m = true → n + 2 ≤ fuel →
      CoroutineStack.frames_loop F fc fuel { _fr := fr, _reg_map := m, _is_done := false } w
        = (.ok (), { w with trace := w.trace ++
            (F.stream_frames n fr m).map (fun p => fc.frames_do p.1 p.2) }) := by
  intro n
  induction n with
  | zero =>
    intro fuel fr m w hend hfuel
    obtain ⟨k, rfl⟩ : ∃ k, fuel = k + 2 := ⟨fuel - 2, by omega⟩
    have hfirst : F.is_first_frame fr = true := hend
    simp only [CoroutineStack.frames_loop, StackFrameStream.is_done, StackFrameStream.next,
      StackFrameStream.current, StackFrameStream.register_map, hfirst, World.emit,
      FrameModel.stream_frames]
    simp
  | succ n ih =>
    intro fuel fr m w hend hfuel
    obtain ⟨k, rfl⟩ : ∃ k, fuel = k + 1 := ⟨fuel - 1, by omega⟩
    simp only [FrameModel.stream_ends, Bool.and_eq_true, Bool.not_eq_true'] at hend
    obtain ⟨hfirst, hrest⟩ := hend
    have hk : n + 2 ≤ k := by omega
    have step : CoroutineStack.frames_loop F fc (k + 1)
        { _fr := fr, _reg_map := m, _is_done := false } w =
        CoroutineStack.frames_loop F fc k
          { _fr := (F.sender fr m).1, _reg_map := (F.sender fr m).2, _is_done := false }
          (w.emit (fc.frames_do fr m)) := by
      simp [CoroutineStack.frames_loop, StackFrameStream.is_done, StackFrameStream.next,
        StackFrameStream.current, StackFrameStream.register_map, hfirst]
    rw [step, ih k _ _ _ hrest hk]
    simp [World.emit, FrameModel.stream_frames]

/-- Whatever the fuel, the loop of `frames_do` only appends visitor calls to
the trace. -/
theorem frames_loop_trace (F : FrameModel) (fc : FrameClosure) :
    ∀ (fuel : Nat) (fst : StackFrameStream) (w : World),
      ∃ visits : List (Frame × RegisterMap),
        (CoroutineStack.frames_loop F fc fuel fst w).2 =
          { w with trace := w.trace ++ visits.map (fun p => fc.frames_do p.1 p.2) } := by
  intro fuel
  induction fuel with
  | zero =>
    intro fst w
    exact ⟨[], by simp [CoroutineStack.frames_loop]⟩
  | succ k ih =>
    intro fst w
    by_cases hd : fst._is_done = true
    · exact ⟨[], by simp [CoroutineStack.frames_loop, StackFrameStream.is_done, hd]⟩
    · obtain ⟨vs, hvs⟩ := ih ((fst.is_done F).2.next F)
        (w.emit (fc.frames_do (fst.is_done F).2.current (fst.is_done F).2.register_map))
      refine ⟨((fst.is_done F).2.current, (fst.is_done F).2.register_map) :: vs, ?_⟩
      have h1 : (fst.is_done F).1 = false := by
        simp [StackFrameStream.is_done, hd]
      simp only [CoroutineStack.frames_loop, h1, Bool.false_eq_true, if_false]
      rw [hvs]
      simp [World.emit]

/-- Whatever the fuel and the outcome, `CoroutineStack::frames_do` only
appends visitor calls to the trace. -/
theorem stack_frames_do_trace (P : Platform) (F : FrameModel) (fuel : Nat)
    (this : CoroutineStack) (fc : FrameClosure) (w : World) :
    ∃ visits : List (Frame × RegisterMap),
      (this.frames_do P F fuel fc w).2 =
        { w with trace := w.trace ++ visits.map (fun p => fc.frames_do p.1 p.2) } := by
  unfold CoroutineStack.frames_do
  by_cases h1 : this._last_sp = NULL
  · exact ⟨[], by simp [h1]⟩
  · by_cases h2 : w.mem this._last_sp = NULL
    · exact ⟨[], by simp [h1, h2]⟩
    · simp only [if_neg h1, ne_eq, h2, not_false_eq_true, if_true]
      exact frames_loop_trace F fc fuel _ w

/-- Whatever the fuel and the outcome, `Coroutine::frames_do` only appends
visitor calls to the trace, and none unless the state is `_onstack`. -/
theorem coroutine_frames_do_trace (P : Platform) (F : FrameModel) (fuel : Nat)
    (this : Coroutine) (fc : FrameClosure) (w : World) :
    ∃ visits : List (Frame × RegisterMap),
      (this.frames_do P F fuel fc w).2 =
        { w with trace := w.trace ++ visits.map (fun p => fc.frames_do p.1 p.2) } ∧
      (this._state ≠ CoroutineState._onstack → visits = []) := by
  unfold Coroutine.frames_do
  cases hst : this._state
  · cases hso : w.stackObjs this._stack with
    | none => exact ⟨[], by simp, fun _ => rfl⟩
    | some s =>
      obtain ⟨vs, hvs⟩ := stack_frames_do_trace P F fuel s fc w
      exact ⟨vs, by simpa using hvs, fun h => absurd rfl h⟩
  · exact ⟨[], by simp, fun _ => rfl⟩
  · exact ⟨[], by simp, fun _ => rfl⟩

/-- On a region with saved context, `CoroutineStack::frames_do` visits the
frames of the stream that starts at the saved frame and returns. -/
theorem stack_frames_do_eq (P : Platform) (F : FrameModel) (this : CoroutineStack)
    (fc : FrameClosure) (w : World) (n fuel : Nat)
    (hsp : this._last_sp ≠ NULL) (hfp : w.mem this._last_sp ≠ NULL)
    (hrange : this._last_sp + 2 * P.wordSize < P.addrSpace)
    (hend : F.stream_ends n (this.saved_frame P w) (this.saved_map P) = true)
    (hfuel : n + 2 ≤ fuel) :
    this.frames_do P F fuel fc w =
      (.ok (), { w with
        trace := w.trace ++
          (F.stream_frames n (this.saved_frame P w) (this.saved_map P)).map
            (fun p => fc.frames_do p.1 p.2) }) := by
  have e1 : P.ptr_add this._last_sp P.wordSize = this._last_sp + P.wordSize :=
    ptr_add_eq P _ _ (by omega)
  have e2 : P.ptr_add this._last_sp (2 * P.wordSize) = this._last_sp + 2 * P.wordSize :=
    ptr_add_eq P _ _ hrange
  have h := frames_loop_walk F fc n fuel _ _ w hend hfuel
  rw [← h]
  simp only [CoroutineStack.frames_do, if_neg hsp, ne_eq, hfp, not_false_eq_true, if_true,
    e1, e2, StackFrameStream.new, StackFrameStream.register_map, RegisterMap.new,
    RegisterMap.set_location, RegisterMap.set_include_argument_oops,
    CoroutineStack.saved_frame, CoroutineStack.saved_map]

/-- On a region whose saved frame pointer is `NULL`, `CoroutineStack::frames_do`
returns at once. -/
theorem stack_frames_do_sentinel (P : Platform) (F : FrameModel) (this : CoroutineStack)
    (fc : FrameClosure) (w : World) (fuel : Nat)
    (hsp : this._last_sp ≠ NULL) (hfp : w.mem this._last_sp = NULL) :
    this.frames_do P F fuel fc w = (.ok (), w) := by
  simp only [CoroutineStack.frames_do, if_neg hsp, hfp, ne_eq, not_true_eq_false, if_false]

/-- On a region without saved context the assertion of
`CoroutineStack::frames_do` fails. -/
theorem stack_frames_do_null (P : Platform) (F : FrameModel) (this : CoroutineStack)
    (fc : FrameClosure) (w : World) (fuel : Nat) (hsp : this._last_sp = NULL) :
    this.frames_do P F fuel fc w = (.error Fatal.assert_failed, w) := by
  simp only [CoroutineStack.frames_do, if_pos hsp]

/-- What `Coroutine::oops_do` records, in terms of the outcome of its frame
walk: the frame visits and, when the walk returned, the walk of the handle
arena of an `_onstack` coroutine. -/
theorem oops_do_after_walk (P : Platform) (F : FrameModel) (fuel : Nat)
    (this : Coroutine) (f cld_f cf : Nat) (w : World) :
    ∃ visits : List (Frame × RegisterMap),
      ((this.frames_do P F fuel (FrameClosure.oops_do_Closure f cld_f cf) w).1 = .ok () →
        (this.oops_do P F fuel f cld_f cf w).2.trace =
          w.trace ++ (visits.map (fun p => Event.frame_oops_do p.1 f cld_f cf p.2) ++
            if this._state = CoroutineState._onstack ∧ this._handle_area ≠ NULL then
              [Event.handle_area_oops_do this._handle_area f]
            else [])) ∧
      ((this.frames_do P F fuel (FrameClosure.oops_do_Closure f cld_f cf) w).1 ≠ .ok () →
        (this.oops_do P F fuel f cld_f cf w).2.trace =
          w.trace ++ visits.map (fun p => Event.frame_oops_do p.1 f cld_f cf p.2)) := by
  obtain ⟨visits, hv, _⟩ :=
    coroutine_frames_do_trace P F fuel this (FrameClosure.oops_do_Closure f cld_f cf) w
  have hmap : visits.map (fun p => (FrameClosure.oops_do_Closure f cld_f cf).frames_do p.1 p.2)
      = visits.map (fun p => Event.frame_oops_do p.1 f cld_f cf p.2) := rfl
  rw [hmap] at hv
  rcases hr : this.frames_do P F fuel (FrameClosure.oops_do_Closure f cld_f cf) w with ⟨r, w1⟩
  rw [hr] at hv
  simp only at hv
  subst hv
  refine ⟨visits, ?_, ?_⟩
  · intro hok
    simp only at hok
    subst hok
    simp only [Coroutine.oops_do, hr]
    by_cases hc : this._state = CoroutineState._onstack ∧ this._handle_area ≠ NULL
    · simp only [if_pos hc, World.emit, List.append_assoc]
    · simp only [if_neg hc, List.append_nil]
  · intro hne
    cases r with
    | error e => simp only [Coroutine.oops_do, hr]
    | ok u => exact absurd rfl hne

/-- The frame visits of an `oops_do_Closure` are no walks of a handle arena. -/
theorem frame_oops_do_no_arena (f cld_f cf : Nat) (visits : List (Frame × RegisterMap)) :
    (visits.map (fun p => Event.frame_oops_do p.1 f cld_f cf p.2)).filter Event.isHandleArea
      = [] := by
  rw [List.filter_eq_nil_iff]
  intro e he
  obtain ⟨p, _, rfl⟩ := List.mem_map.1 he
  simp [Event.isHandleArea]

theorem reserve_events_no_warning (P : Platform) (O : Oracle) (size : Int) :
    (CoroutineStack.reserve_events P O size).filter Event.isWarning = [] := by
  unfold CoroutineStack.reserve_events
  split <;> simp [Event.isWarning]

theorem reserve_events_no_protection (P : Platform) (O : Oracle) (size : Int) :
    (CoroutineStack.reserve_events P O size).filter Event.isProtection = [] := by
  unfold CoroutineStack.reserve_events
  split <;> simp [Event.isProtection]

/-- The calls of the guard-page block when `os::guard_memory` succeeds. -/
theorem guard_events_protected (P : Platform) (O : Oracle) (stack : CoroutineStack)
    (hguard : P.uses_stack_guard_pages = true)
    (hok : O.guard_memory (P.ptr_sub stack._stack_base stack._stack_size)
      (CoroutineStack.guard_len P) = true) :
    CoroutineStack.guard_events P O stack =
      [Event.guard_memory (P.ptr_sub stack._stack_base stack._stack_size)
        (CoroutineStack.guard_len P) true] := by
  simp only [CoroutineStack.guard_events, hguard, hok, if_true]

/-- When `os::guard_memory` fails the guard-page block warns and protects
nothing. -/
theorem guard_events_unprotected (P : Platform) (O : Oracle) (stack : CoroutineStack)
    (hguard : P.uses_stack_guard_pages = true)
    (hfail : O.guard_memory (P.ptr_sub stack._stack_base stack._stack_size)
      (CoroutineStack.guard_len P) = false) :
    Event.warning Warning.protect_failed ∈ CoroutineStack.guard_events P O stack ∧
    (CoroutineStack.guard_events P O stack).filter Event.isProtection = [] := by
  simp only [CoroutineStack.guard_events, hguard, hfail, if_true, Bool.false_eq_true,
    if_false]
  cases O.uncommit_memory (P.ptr_sub stack._stack_base stack._stack_size)
    (CoroutineStack.guard_len P) <;> simp [Event.isProtection]

/-- The machine value of `real_stack_size` is the exact sum where nothing wraps. -/
theorem real_stack_size_exact (P : Platform) (size : Int)
    (h1 : 0 ≤ P.StackShadowPages + P.StackRedPages + P.StackYellowPages)
    (h2 : P.StackShadowPages + P.StackRedPages + P.StackYellowPages < 2 ^ 32)
    (h3 : 0 ≤ (P.StackShadowPages + P.StackRedPages + P.StackYellowPages) * P.vm_page_size)
    (h4 : (P.StackShadowPages + P.StackRedPages + P.StackYellowPages) * P.vm_page_size < 2 ^ 32)
    (h5 : 0 ≤ size +
      (P.StackShadowPages + P.StackRedPages + P.StackYellowPages) * P.vm_page_size)
    (h6 : size + (P.StackShadowPages + P.StackRedPages + P.StackYellowPages) * P.vm_page_size
      < (P.addrSpace : Int)) :
    (CoroutineStack.real_stack_size P size : Int) =
      size + (P.StackShadowPages + P.StackRedPages + P.StackYellowPages) * P.vm_page_size := by
  simp only [CoroutineStack.real_stack_size, CoroutineStack.reserved_pages, toUint,
    Platform.toUintx]
  have e1 : (P.StackShadowPages + P.StackRedPages + P.StackYellowPages) % (2 ^ 32 : Int)
      = P.StackShadowPages + P.StackRedPages + P.StackYellowPages :=
    Int.emod_eq_of_lt h1 h2
  rw [e1, Int.toNat_of_nonneg h1, Int.emod_eq_of_lt h3 h4, Int.toNat_of_nonneg h3,
    Int.emod_eq_of_lt h5 h6, Int.toNat_of_nonneg h5]

/-! ## Claims -/

/-- C1: for a stack region with word-aligned base `B` that lies at least six
words above the region's low end, a successful `Coroutine::create_coroutine`
stores, from high to low address, `NULL`, the global handle of the task
object, the address of the new `Coroutine`, the address of `coroutine_start`,
`NULL` and `NULL` in the six words below `B`, sets the region's `last_sp` to
the address of the lowest of them, and leaves every other word of memory as it
was. -/
theorem create_coroutine_initial_frame (P : Platform) (O : Oracle) (thread : JavaThread)
    (stack : Nat) (coroutineObj : Nat) (w : World) (s : CoroutineStack)
    (hs : w.stackObjs stack = some s) (hnew : O.new_Coroutine ≠ NULL)
    (halign : s._stack_base % P.wordSize = 0)
    (hroom : 6 * P.wordSize ≤ s._stack_size) (hlow : s._stack_size ≤ s._stack_base)
    (hrange : s._stack_base < P.addrSpace) :
    (Coroutine.create_coroutine P O thread stack coroutineObj w).1 = .ok O.new_Coroutine ∧
    (Coroutine.create_coroutine P O thread stack coroutineObj w).2.mem
        (s._stack_base - P.wordSize) = NULL ∧
    (Coroutine.create_coroutine P O thread stack coroutineObj w).2.mem
        (s._stack_base - 2 * P.wordSize) = O.make_global coroutineObj ∧
    (Coroutine.create_coroutine P O thread stack coroutineObj w).2.mem
        (s._stack_base - 3 * P.wordSize) = O.new_Coroutine ∧
    (Coroutine.create_coroutine P O thread stack coroutineObj w).2.mem
        (s._stack_base - 4 * P.wordSize) = P.coroutine_start ∧
    (Coroutine.create_coroutine P O thread stack coroutineObj w).2.mem
        (s._stack_base - 5 * P.wordSize) = NULL ∧
    (Coroutine.create_coroutine P O thread stack coroutineObj w).2.mem
        (s._stack_base - 6 * P.wordSize) = NULL ∧
    (Coroutine.create_coroutine P O thread stack coroutineObj w).2.stackObjs stack =
        some { s with _last_sp := s._stack_base - 6 * P.wordSize } ∧
    (s._stack_base - 6 * P.wordSize) % P.wordSize = 0 ∧
    ∀ a : Nat, (a < s._stack_base - 6 * P.wordSize ∨ s._stack_base ≤ a ∨ a % P.wordSize ≠ 0) →
      (Coroutine.create_coroutine P O thread stack coroutineObj w).2.mem a = w.mem a := by
  have hw := wordSize_pos P
  have hmod : ∀ k, k ≤ 6 → (s._stack_base - k * P.wordSize) % P.wordSize = 0 := by
    intro k hk
    have hle : P.wordSize * k ≤ s._stack_base :=
      le_trans (Nat.mul_le_mul_left _ hk) (by omega)
    rw [Nat.mul_comm, Nat.sub_mul_mod hle, halign]
  have m1 := hmod 1 (by omega)
  have m2 := hmod 2 (by omega)
  have m3 := hmod 3 (by omega)
  have m4 := hmod 4 (by omega)
  have m5 := hmod 5 (by omega)
  have m6 := hmod 6 (by omega)
  rw [Nat.one_mul] at m1
  rw [create_coroutine_eq P O thread stack coroutineObj w s hs hnew (by omega) hrange]
  refine ⟨rfl, ?_, ?_, ?_, ?_, ?_, ?_, ?_, m6, ?_⟩
  · simp only [World.store, World.emit, World.setStack, World.setCoroutine]
    split_ifs <;> first | rfl | omega
  · simp only [World.store, World.emit, World.setStack, World.setCoroutine]
    split_ifs <;> first | rfl | omega
  · simp only [World.store, World.emit, World.setStack, World.setCoroutine]
    split_ifs <;> first | rfl | omega
  · simp only [World.store, World.emit, World.setStack, World.setCoroutine]
    split_ifs <;> first | rfl | omega
  · simp only [World.store, World.emit, World.setStack, World.setCoroutine]
    split_ifs <;> rfl
  · simp only [World.store, World.emit, World.setStack, World.setCoroutine]
    split_ifs <;> rfl
  · simp only [World.store, World.emit, World.setStack, World.setCoroutine,
      CoroutineStack.set_last_sp, if_true]
  · intro a ha
    simp only [World.store, World.emit, World.setStack, World.setCoroutine]
    rcases ha with h | h | h
    · split_ifs <;> first | rfl | omega
    · split_ifs <;> first | rfl | omega
    · split_ifs with c6 c5 c4 c3 c2 c1
      · exact absurd (c6 ▸ m6) h
      · exact absurd (c5 ▸ m5) h
      · exact absurd (c4 ▸ m4) h
      · exact absurd (c3 ▸ m3) h
      · exact absurd (c2 ▸ m2) h
      · exact absurd (c1 ▸ m1) h
      · rfl

/-- Witness of C1 on `exWorld`: the coroutine created at `500` on the region
with base `8192` leaves `0, 43, 500, 7777, 0, 0` in the words `8184 … 8144`. -/
theorem create_coroutine_initial_frame_witness :
    (Coroutine.create_coroutine exPlatform exOracle exThread 100 42 exWorld).1 = .ok 500 ∧
    (Coroutine.create_coroutine exPlatform exOracle exThread 100 42 exWorld).2.mem 8184 = 0 ∧
    (Coroutine.create_coroutine exPlatform exOracle exThread 100 42 exWorld).2.mem 8176 = 43 ∧
    (Coroutine.create_coroutine exPlatform exOracle exThread 100 42 exWorld).2.mem 8168 = 500 ∧
    (Coroutine.create_coroutine exPlatform exOracle exThread 100 42 exWorld).2.mem 8160 = 7777 ∧
    (Coroutine.create_coroutine exPlatform exOracle exThread 100 42 exWorld).2.mem 8152 = 0 ∧
    (Coroutine.create_coroutine exPlatform exOracle exThread 100 42 exWorld).2.mem 8144 = 0 ∧
    (Coroutine.create_coroutine exPlatform exOracle exThread 100 42 exWorld).2.stackObjs 100 =
        some { exStack with _last_sp := 8144 } ∧
    8144 % 8 = 0 ∧
    ∀ a : Nat, (a < 8144 ∨ 8192 ≤ a ∨ a % 8 ≠ 0) →
      (Coroutine.create_coroutine exPlatform exOracle exThread 100 42 exWorld).2.mem a = 9 :=
  create_coroutine_initial_frame exPlatform exOracle exThread 100 42 exWorld exStack
    rfl (by decide) (by decide) (by decide) (by decide) (by decide)

/-- C2: creation followed by a walk. When `Coroutine::create_coroutine`
succeeds on a region whose base lies more than six words above address `0`
(as it does for every region with room for six words above a non-null low
end), the new coroutine is `_onstack`, so `Coroutine::frames_do` on it is
`CoroutineStack::frames_do` on its region; there `last_sp` is not `NULL` (the
assertion holds), the frame pointer read at `last_sp[0]` is `NULL`, and the
walk returns, whatever the visitor, the frame model and the fuel, without a
single call of the visitor: the world, its trace included, is unchanged. -/
theorem create_coroutine_then_frames_do (P : Platform) (O : Oracle) (F : FrameModel)
    (thread : JavaThread) (stack : Nat) (coroutineObj : Nat) (w : World) (s : CoroutineStack)
    (fuel : Nat) (fc : FrameClosure)
    (hs : w.stackObjs stack = some s) (hnew : O.new_Coroutine ≠ NULL)
    (hbase : 6 * P.wordSize < s._stack_base) (hrange : s._stack_base < P.addrSpace) :
    ∃ (c : Coroutine) (s1 : CoroutineStack),
      (Coroutine.create_coroutine P O thread stack coroutineObj w).1 = .ok O.new_Coroutine ∧
      (Coroutine.create_coroutine P O thread stack coroutineObj w).2.coroObjs O.new_Coroutine
        = some c ∧
      c._state = CoroutineState._onstack ∧
      (Coroutine.create_coroutine P O thread stack coroutineObj w).2.stackObjs c._stack
        = some s1 ∧
      s1._last_sp ≠ NULL ∧
      (Coroutine.create_coroutine P O thread stack coroutineObj w).2.mem s1._last_sp = NULL ∧
      c.frames_do P F fuel fc (Coroutine.create_coroutine P O thread stack coroutineObj w).2
        = s1.frames_do P F fuel fc
            (Coroutine.create_coroutine P O thread stack coroutineObj w).2 ∧
      c.frames_do P F fuel fc (Coroutine.create_coroutine P O thread stack coroutineObj w).2
        = (.ok (), (Coroutine.create_coroutine P O thread stack coroutineObj w).2) := by
  have hw := wordSize_pos P
  rw [create_coroutine_eq P O thread stack coroutineObj w s hs hnew (by omega) hrange]
  have hsp : s._stack_base - 6 * P.wordSize ≠ NULL := by
    simp only [NULL]; omega
  refine ⟨{ _state := CoroutineState._onstack, _is_thread_coroutine := false,
            _thread := thread, _stack := stack, _resource_area := NULL, _handle_area := NULL,
            _last_handle_mark := NULL, _java_call_counter := 0, _last_SEH := NULL },
    s.set_last_sp (s._stack_base - 6 * P.wordSize), rfl, ?_, rfl, ?_, hsp, ?_, ?_, ?_⟩
  · simp only [World.setCoroutine, if_true]
  · simp only [World.setCoroutine, World.setStack, if_true]
  · simp only [World.setCoroutine, World.setStack, World.store, CoroutineStack.set_last_sp,
      if_true]
  · simp only [Coroutine.frames_do, World.setCoroutine, World.setStack, if_true]
  · simp only [Coroutine.frames_do, CoroutineStack.frames_do, World.setCoroutine,
      World.setStack, World.store, CoroutineStack.set_last_sp, if_true, if_neg hsp,
      ne_eq, not_true_eq_false, if_false]

/-- Witness of C2 on `exWorld`, with a frame model in which no frame is ever
the first one and with no fuel at all. -/
theorem create_coroutine_then_frames_do_witness :
    ∃ (c : Coroutine) (s1 : CoroutineStack),
      (Coroutine.create_coroutine exPlatform exOracle exThread 100 42 exWorld).1 = .ok 500 ∧
      (Coroutine.create_coroutine exPlatform exOracle exThread 100 42 exWorld).2.coroObjs 500
        = some c ∧
      c._state = CoroutineState._onstack ∧
      (Coroutine.create_coroutine exPlatform exOracle exThread 100 42 exWorld).2.stackObjs
        c._stack = some s1 ∧
      s1._last_sp ≠ NULL ∧
      (Coroutine.create_coroutine exPlatform exOracle exThread 100 42 exWorld).2.mem
        s1._last_sp = NULL ∧
      c.frames_do exPlatform { is_first_frame := fun _ => false, sender := fun f m => (f, m) } 0
          (FrameClosure.other 1)
          (Coroutine.create_coroutine exPlatform exOracle exThread 100 42 exWorld).2
        = s1.frames_do exPlatform { is_first_frame := fun _ => false, sender := fun f m => (f, m) }
            0 (FrameClosure.other 1)
            (Coroutine.create_coroutine exPlatform exOracle exThread 100 42 exWorld).2 ∧
      c.frames_do exPlatform { is_first_frame := fun _ => false, sender := fun f m => (f, m) } 0
          (FrameClosure.other 1)
          (Coroutine.create_coroutine exPlatform exOracle exThread 100 42 exWorld).2
        = (.ok (), (Coroutine.create_coroutine exPlatform exOracle exThread 100 42 exWorld).2) :=
  create_coroutine_then_frames_do exPlatform exOracle
    { is_first_frame := fun _ => false, sender := fun f m => (f, m) } exThread 100 42 exWorld
    exStack 0 (FrameClosure.other 1) rfl (by decide) (by decide) (by decide)

/-- C3: `Coroutine::frames_do` dispatches on the state. In state `_current`
and in state `_dead` it returns at once for every world: no visitor call is
recorded and the stack region is not read, so it returns even when the
`_stack` pointer is dangling or the region's `last_sp` is `NULL`. In state
`_onstack` it is `CoroutineStack::frames_do` of the region `_stack` points
to, with the same visitor. -/
theorem coroutine_frames_do_dispatch (P : Platform) (F : FrameModel) (fuel : Nat)
    (this : Coroutine) (fc : FrameClosure) (w : World) :
    (this._state = CoroutineState._current → this.frames_do P F fuel fc w = (.ok (), w)) ∧
    (this._state = CoroutineState._dead → this.frames_do P F fuel fc w = (.ok (), w)) ∧
    (this._state = CoroutineState._onstack → ∀ s : CoroutineStack,
      w.stackObjs this._stack = some s →
        this.frames_do P F fuel fc w = s.frames_do P F fuel fc w) := by
  refine ⟨?_, ?_, ?_⟩
  · intro h
    simp only [Coroutine.frames_do, h]
  · intro h
    simp only [Coroutine.frames_do, h]
  · intro h s hs
    simp only [Coroutine.frames_do, h, hs]

/-- Witness of C3 on `exWorld`, whose stack object at `100` has a `NULL`
`last_sp`: the walk of a `_current` or `_dead` coroutine returns all the same. -/
theorem coroutine_frames_do_dispatch_witness :
    (exCoroutine CoroutineState._current 0).frames_do exPlatform exFrames 5
        (FrameClosure.other 1) exWorld = (.ok (), exWorld) ∧
    (exCoroutine CoroutineState._dead 0).frames_do exPlatform exFrames 5
        (FrameClosure.other 1) exWorld = (.ok (), exWorld) ∧
    (exCoroutine CoroutineState._onstack 0).frames_do exPlatform exFrames 5
        (FrameClosure.other 1) exWorld
      = exStack.frames_do exPlatform exFrames 5 (FrameClosure.other 1) exWorld :=
  ⟨(coroutine_frames_do_dispatch exPlatform exFrames 5 (exCoroutine CoroutineState._current 0)
      (FrameClosure.other 1) exWorld).1 rfl,
   (coroutine_frames_do_dispatch exPlatform exFrames 5 (exCoroutine CoroutineState._dead 0)
      (FrameClosure.other 1) exWorld).2.1 rfl,
   (coroutine_frames_do_dispatch exPlatform exFrames 5 (exCoroutine CoroutineState._onstack 0)
      (FrameClosure.other 1) exWorld).2.2 rfl exStack rfl⟩

/-- C5: `CoroutineStack::free_stack` on a region whose `is_thread_stack` flag
is set fails its `guarantee` and leaves the world as it was: no call to the
stack-range registry, no release of committed or reserved memory and no
`delete` is recorded, and the wrapper object is still live. Every region
returned by `create_thread_stack` is such a region. On a region whose flag is
clear the check passes and `free_stack` returns. -/
theorem free_stack_thread_stack (stack : Nat) (thread : JavaThread) (w : World)
    (s : CoroutineStack) (hs : w.stackObjs stack = some s) :
    (s._is_thread_stack = true →
      CoroutineStack.free_stack stack thread w = (.error Fatal.guarantee_failed, w)) ∧
    (s._is_thread_stack = false →
      (CoroutineStack.free_stack stack thread w).1 = .ok ()) ∧
    (∀ (O : Oracle) (owner : JavaThread) (w0 : World), O.new_CoroutineStack ≠ NULL →
      ∃ s1 : CoroutineStack,
        (CoroutineStack.create_thread_stack O owner w0).2.stackObjs
          (CoroutineStack.create_thread_stack O owner w0).1 = some s1 ∧
        s1._is_thread_stack = true ∧
        CoroutineStack.free_stack (CoroutineStack.create_thread_stack O owner w0).1 thread
            (CoroutineStack.create_thread_stack O owner w0).2
          = (.error Fatal.guarantee_failed, (CoroutineStack.create_thread_stack O owner w0).2)) := by
  refine ⟨?_, ?_, ?_⟩
  · intro h
    simp only [CoroutineStack.free_stack, hs, CoroutineStack.is_thread_stack, h, if_true]
  · intro h
    simp only [CoroutineStack.free_stack, hs, CoroutineStack.is_thread_stack, h]
    rfl
  · intro O owner w0 hnew
    simp only [CoroutineStack.create_thread_stack, if_neg hnew, CoroutineStack.free_stack,
      World.setStack, if_true, CoroutineStack.is_thread_stack]
    exact ⟨_, rfl, rfl, trivial⟩

/-- Witness of C5: the region made by `create_thread_stack` on `exWorld`
cannot be freed, while the coroutine stack region of `exWorld` can. -/
theorem free_stack_thread_stack_witness :
    CoroutineStack.free_stack 100 exThread
        (CoroutineStack.create_thread_stack exOracle exThread exWorld).2
      = (.error Fatal.guarantee_failed,
          (CoroutineStack.create_thread_stack exOracle exThread exWorld).2) ∧
    (CoroutineStack.free_stack 100 exThread exWorld).1 = .ok () :=
  ⟨(free_stack_thread_stack 100 exThread
      (CoroutineStack.create_thread_stack exOracle exThread exWorld).2
      { exStack with
        _is_thread_stack := true
        _reserved_space := { base := NULL, size := 0 }
        _virtual_space := { low := NULL, high := NULL }
        _stack_base := 900000
        _stack_size := 65536 } rfl).1 rfl,
   (free_stack_thread_stack 100 exThread exWorld exStack rfl).2.1 rfl⟩

/-- C4: when `create_stack` returns a region for a request `size <= 0`, the
region's `_default_size` flag is set and its committed size is at least (in
fact equal to) `DefaultCoroutineStackSize + reserved_pages * page_size` as the
code computes it: the page count and the product are C `uint`s, the sum is a
`uintx`. Where none of these wraps, that is the exact sum
`DefaultCoroutineStackSize + (StackShadowPages + StackRedPages +
StackYellowPages) * page_size`. For a request `size > 0` the flag is clear. -/
theorem create_stack_default_size (P : Platform) (O : Oracle) (thread : JavaThread)
    (size : Int) (w : World)
    (hret : (CoroutineStack.create_stack P O thread size w).1 ≠ NULL) :
    ∃ s : CoroutineStack,
      (CoroutineStack.create_stack P O thread size w).2.stackObjs
        (CoroutineStack.create_stack P O thread size w).1 = some s ∧
      (size ≤ 0 → s._default_size = true ∧
        CoroutineStack.real_stack_size P P.DefaultCoroutineStackSize ≤ s._stack_size ∧
        s._stack_size = P.toUintx (P.DefaultCoroutineStackSize +
          ((toUint ((toUint (P.StackShadowPages + P.StackRedPages + P.StackYellowPages) : Int)
            * P.vm_page_size) : Nat) : Int))) ∧
      (size ≤ 0 →
        0 ≤ P.StackShadowPages + P.StackRedPages + P.StackYellowPages →
        P.StackShadowPages + P.StackRedPages + P.StackYellowPages < 2 ^ 32 →
        0 ≤ (P.StackShadowPages + P.StackRedPages + P.StackYellowPages) * P.vm_page_size →
        (P.StackShadowPages + P.StackRedPages + P.StackYellowPages) * P.vm_page_size < 2 ^ 32 →
        0 ≤ P.DefaultCoroutineStackSize +
          (P.StackShadowPages + P.StackRedPages + P.StackYellowPages) * P.vm_page_size →
        P.DefaultCoroutineStackSize +
          (P.StackShadowPages + P.StackRedPages + P.StackYellowPages) * P.vm_page_size
            < (P.addrSpace : Int) →
        P.DefaultCoroutineStackSize +
          (P.StackShadowPages + P.StackRedPages + P.StackYellowPages) * P.vm_page_size
            ≤ (s._stack_size : Int)) ∧
      (0 < size → s._default_size = false) := by
  obtain ⟨hnew, hok⟩ := create_stack_nonnull P O thread size w hret
  have hsz := (created_region_size P O thread size hok).1
  rw [create_stack_success P O thread size w hnew hok]
  refine ⟨CoroutineStack.created_region P O thread size, by simp, ?_, ?_, ?_⟩
  · intro hle
    rw [hsz]
    simp only [CoroutineStack.requested_size, if_pos hle]
    refine ⟨by simp [CoroutineStack.created_region, hle], le_refl _, rfl⟩
  · intro hle h1 h2 h3 h4 h5 h6
    rw [hsz]
    simp only [CoroutineStack.requested_size, if_pos hle, CoroutineStack.real_stack_size,
      CoroutineStack.reserved_pages, toUint, Platform.toUintx]
    have e1 : (P.StackShadowPages + P.StackRedPages + P.StackYellowPages) % (2 ^ 32 : Int)
        = P.StackShadowPages + P.StackRedPages + P.StackYellowPages :=
      Int.emod_eq_of_lt h1 h2
    rw [e1, Int.toNat_of_nonneg h1, Int.emod_eq_of_lt h3 h4, Int.toNat_of_nonneg h3,
      Int.emod_eq_of_lt h5 h6, Int.toNat_of_nonneg h5]
  · intro hpos
    simp [CoroutineStack.created_region, hpos]

/-- Witness of C4: a request of size `0` on `exPlatform` yields a default-size
region of at least `65536 + 4 * 4096` bytes. -/
theorem create_stack_default_size_witness :
    (CoroutineStack.create_stack exPlatform exOracle exThread 0 exWorld).1 ≠ NULL ∧
    ∃ s : CoroutineStack,
      (CoroutineStack.create_stack exPlatform exOracle exThread 0 exWorld).2.stackObjs
        (CoroutineStack.create_stack exPlatform exOracle exThread 0 exWorld).1 = some s ∧
      s._default_size = true ∧
      (65536 + (1 + 1 + 2) * 4096 : Int) ≤ (s._stack_size : Int) := by
  have hret : (CoroutineStack.create_stack exPlatform exOracle exThread 0 exWorld).1 ≠ NULL := by
    decide
  obtain ⟨s, h1, h2, h3, _⟩ :=
    create_stack_default_size exPlatform exOracle exThread 0 exWorld hret
  exact ⟨hret, s, h1, (h2 (le_refl 0)).1,
    h3 (le_refl 0) (by decide) (by decide) (by decide) (by decide) (by decide) (by decide)⟩

/-- C6: a failure of `os::guard_memory` is not fatal. Whenever the wrapper
object is allocated, reservation and commit succeed and guard pages are in
use, `create_stack` with a failing `os::guard_memory` returns the same
non-null pointer as with a succeeding one, to an equal region object (same
`_stack_base`, `_stack_size`, `_is_thread_stack`, `_default_size` and all
other fields), and both runs make the same single registry call
`add_coroutine_stack(thread, stack_base, stack_size)`. -/
theorem create_stack_guard_failure (P : Platform) (O : Oracle) (thread : JavaThread)
    (size : Int) (w : World)
    (hnew : O.new_CoroutineStack ≠ NULL)
    (hok : CoroutineStack.commit_ok P O size = true)
    (hguard : P.uses_stack_guard_pages = true) :
    (CoroutineStack.create_stack P (O.withGuard false) thread size w).1 ≠ NULL ∧
    (CoroutineStack.create_stack P (O.withGuard false) thread size w).1 =
      (CoroutineStack.create_stack P (O.withGuard true) thread size w).1 ∧
    ∃ (s : CoroutineStack) (evF evT : List Event),
      (CoroutineStack.create_stack P (O.withGuard false) thread size w).2.stackObjs
        (CoroutineStack.create_stack P (O.withGuard false) thread size w).1 = some s ∧
      (CoroutineStack.create_stack P (O.withGuard true) thread size w).2.stackObjs
        (CoroutineStack.create_stack P (O.withGuard true) thread size w).1 = some s ∧
      (CoroutineStack.create_stack P (O.withGuard false) thread size w).2.trace
        = w.trace ++ evF ∧
      (CoroutineStack.create_stack P (O.withGuard true) thread size w).2.trace
        = w.trace ++ evT ∧
      evF.filter Event.isGuard =
        [Event.guard_memory (P.ptr_sub s._stack_base s._stack_size)
          (CoroutineStack.guard_len P) false] ∧
      evT.filter Event.isGuard =
        [Event.guard_memory (P.ptr_sub s._stack_base s._stack_size)
          (CoroutineStack.guard_len P) true] ∧
      evF.filter Event.isRegistry =
        [Event.add_coroutine_stack thread s._stack_base s._stack_size] ∧
      evT.filter Event.isRegistry =
        [Event.add_coroutine_stack thread s._stack_base s._stack_size] := by
  have hokF : CoroutineStack.commit_ok P (O.withGuard false) size = true := hok
  have hokT : CoroutineStack.commit_ok P (O.withGuard true) size = true := hok
  have hnewF : (O.withGuard false).new_CoroutineStack ≠ NULL := hnew
  have hnewT : (O.withGuard true).new_CoroutineStack ≠ NULL := hnew
  rw [create_stack_success P (O.withGuard false) thread size w hnewF hokF,
    create_stack_success P (O.withGuard true) thread size w hnewT hokT]
  refine ⟨hnew, rfl, CoroutineStack.created_region P O thread size, _, _, ?_, ?_, rfl, rfl,
    ?_, ?_, ?_, ?_⟩
  · simp only [if_true]
    rfl
  · simp only [if_true]
    rfl
  · simp only [List.filter_append, reserve_events_no_guard,
      guard_events_guard P (O.withGuard false) _ hguard]
    simp [Event.isGuard, Oracle.withGuard]
    rfl
  · simp only [List.filter_append, reserve_events_no_guard,
      guard_events_guard P (O.withGuard true) _ hguard]
    simp [Event.isGuard, Oracle.withGuard]
    rfl
  · simp only [List.filter_append, reserve_events_no_registry, guard_events_no_registry]
    simp [Event.isRegistry]
    exact ⟨rfl, rfl⟩
  · simp only [List.filter_append, reserve_events_no_registry, guard_events_no_registry]
    simp [Event.isRegistry]
    exact ⟨rfl, rfl⟩

/-- Witness of C6 on `exPlatform`, where guard pages are in use. -/
theorem create_stack_guard_failure_witness :
    exOracle.new_CoroutineStack ≠ NULL ∧
    CoroutineStack.commit_ok exPlatform exOracle 0 = true ∧
    exPlatform.uses_stack_guard_pages = true ∧
    (CoroutineStack.create_stack exPlatform (exOracle.withGuard false) exThread 0 exWorld).1
      ≠ NULL ∧
    (CoroutineStack.create_stack exPlatform (exOracle.withGuard false) exThread 0 exWorld).1 =
      (CoroutineStack.create_stack exPlatform (exOracle.withGuard true) exThread 0 exWorld).1 :=
  ⟨by decide, by decide, rfl,
    (create_stack_guard_failure exPlatform exOracle exThread 0 exWorld
      (by decide) (by decide) rfl).1,
    (create_stack_guard_failure exPlatform exOracle exThread 0 exWorld
      (by decide) (by decide) rfl).2.1⟩

/-- C7: allocation failure in `create_stack`. If the wrapper object cannot be
allocated, the call returns `NULL` and the world is untouched. If the object
is allocated but reservation or commit fails, the call returns `NULL`, no
object is added to the heap, and the calls made are the reservation, the
failed `initialize`, `_reserved_space.release()` and `delete stack`, in this
order. In general a `NULL` result comes with no call of `os::guard_memory` and
no call of the stack-range registry, and a non-null result with exactly one
registry call, `add_coroutine_stack` with the bounds of the returned region. -/
theorem create_stack_allocation_failure (P : Platform) (O : Oracle) (thread : JavaThread)
    (size : Int) (w : World) :
    (O.new_CoroutineStack = NULL →
      CoroutineStack.create_stack P O thread size w = (NULL, w)) ∧
    (O.new_CoroutineStack ≠ NULL → CoroutineStack.commit_ok P O size = false →
      (CoroutineStack.create_stack P O thread size w).1 = NULL ∧
      (CoroutineStack.create_stack P O thread size w).2.stackObjs = w.stackObjs ∧
      (CoroutineStack.create_stack P O thread size w).2.mem = w.mem ∧
      (CoroutineStack.create_stack P O thread size w).2.trace =
        w.trace ++ (CoroutineStack.reserve_events P O size ++
          [Event.vs_init (CoroutineStack.reservation P O size)
              (CoroutineStack.real_stack_size P (CoroutineStack.requested_size P size)) false,
            Event.rs_release (CoroutineStack.reservation P O size),
            Event.delete_stack O.new_CoroutineStack])) ∧
    ∃ evs : List Event,
      (CoroutineStack.create_stack P O thread size w).2.trace = w.trace ++ evs ∧
      ((CoroutineStack.create_stack P O thread size w).1 = NULL →
        evs.filter Event.isGuard = [] ∧ evs.filter Event.isRegistry = [] ∧
        (CoroutineStack.create_stack P O thread size w).2.stackObjs = w.stackObjs) ∧
      ((CoroutineStack.create_stack P O thread size w).1 ≠ NULL →
        ∃ s : CoroutineStack,
          (CoroutineStack.create_stack P O thread size w).2.stackObjs
            (CoroutineStack.create_stack P O thread size w).1 = some s ∧
          evs.filter Event.isRegistry =
            [Event.add_coroutine_stack thread s._stack_base s._stack_size]) := by
  refine ⟨fun h => create_stack_no_object P O thread size w h, ?_, ?_⟩
  · intro hnew hfail
    rw [create_stack_no_memory P O thread size w hnew hfail]
    exact ⟨rfl, rfl, rfl, rfl⟩
  · by_cases hnew : O.new_CoroutineStack = NULL
    · rw [create_stack_no_object P O thread size w hnew]
      exact ⟨[], by simp, fun _ => ⟨rfl, rfl, rfl⟩, fun h => absurd rfl h⟩
    · cases hc : CoroutineStack.commit_ok P O size
      · rw [create_stack_no_memory P O thread size w hnew hc]
        refine ⟨_, rfl, fun _ => ⟨?_, ?_, rfl⟩, fun h => absurd rfl h⟩
        · simp only [List.filter_append, reserve_events_no_guard]
          simp [Event.isGuard]
        · simp only [List.filter_append, reserve_events_no_registry]
          simp [Event.isRegistry]
      · rw [create_stack_success P O thread size w hnew hc]
        refine ⟨_, rfl, fun h => absurd h hnew, fun _ =>
          ⟨CoroutineStack.created_region P O thread size, by simp, ?_⟩⟩
        simp only [List.filter_append, reserve_events_no_registry, guard_events_no_registry]
        simp [Event.isRegistry]

/-- Witness of C7: on `exWorld`, without a wrapper object nothing happens, and
with a refused commit the reservation of `81920` bytes at `1048576` is released
and the wrapper deleted. -/
theorem create_stack_allocation_failure_witness :
    CoroutineStack.create_stack exPlatform exOracleNoObject exThread 0 exWorld
      = (NULL, exWorld) ∧
    (CoroutineStack.create_stack exPlatform exOracleNoCommit exThread 0 exWorld).1 = NULL ∧
    (CoroutineStack.create_stack exPlatform exOracleNoCommit exThread 0 exWorld).2.trace =
      [Event.reserve_memory 81920 1048576,
        Event.vs_init { base := 1048576, size := 81920 } 81920 false,
        Event.rs_release { base := 1048576, size := 81920 },
        Event.delete_stack 100] :=
  ⟨(create_stack_allocation_failure exPlatform exOracleNoObject exThread 0 exWorld).1 rfl,
   ((create_stack_allocation_failure exPlatform exOracleNoCommit exThread 0 exWorld).2.1
      (by decide) (by decide)).1,
   ((create_stack_allocation_failure exPlatform exOracleNoCommit exThread 0 exWorld).2.1
      (by decide) (by decide)).2.2.2⟩

/-- C9, as stated, fails on `exPlatform` (one shadow, one red and two yellow
pages of 4096 bytes). The overhead added to the requested size is
`4 * 4096 = 16384` bytes, while the band handed to `os::guard_memory` starts
at the lowest address `1048576` of the region and is `3 * 4096 = 12288` bytes
long; no band of `16384` bytes is protected. And when `os::guard_memory`
fails, the region is returned all the same with no band protected at all. -/
theorem create_stack_guard_band_counterexample :
    exPlatform.uses_stack_guard_pages = true ∧
    (exPlatform.StackShadowPages + exPlatform.StackRedPages + exPlatform.StackYellowPages)
      * exPlatform.vm_page_size = 16384 ∧
    (CoroutineStack.create_stack exPlatform exOracle exThread 65536 exWorld).1 = 100 ∧
    (CoroutineStack.create_stack exPlatform exOracle exThread 65536 exWorld).2.trace =
      [Event.reserve_memory 81920 1048576,
        Event.vs_init { base := 1048576, size := 81920 } 81920 true,
        Event.guard_memory 1048576 12288 true,
        Event.add_coroutine_stack exThread 1130496 81920] ∧
    (∀ (a : Nat) (ok : Bool), Event.guard_memory a 16384 ok ∉
      (CoroutineStack.create_stack exPlatform exOracle exThread 65536 exWorld).2.trace) ∧
    (CoroutineStack.create_stack exPlatform (exOracle.withGuard false) exThread 65536
      exWorld).1 = 100 ∧
    (CoroutineStack.create_stack exPlatform (exOracle.withGuard false) exThread 65536
      exWorld).2.trace =
      [Event.reserve_memory 81920 1048576,
        Event.vs_init { base := 1048576, size := 81920 } 81920 true,
        Event.guard_memory 1048576 12288 false,
        Event.warning Warning.protect_failed,
        Event.uncommit_memory 1048576 12288 true,
        Event.warning Warning.deallocate_failed,
        Event.add_coroutine_stack exThread 1130496 81920] ∧
    (CoroutineStack.create_stack exPlatform (exOracle.withGuard false) exThread 65536
      exWorld).2.trace.filter Event.isProtection = [] := by
  refine ⟨rfl, by decide, by decide, by decide, ?_, by decide, by decide, by decide⟩
  intro a ok h
  have ht : (CoroutineStack.create_stack exPlatform exOracle exThread 65536 exWorld).2.trace =
      [Event.reserve_memory 81920 1048576,
        Event.vs_init { base := 1048576, size := 81920 } 81920 true,
        Event.guard_memory 1048576 12288 true,
        Event.add_coroutine_stack exThread 1130496 81920] := by decide
  rw [ht] at h
  simp at h

/-- C9, amended: when guard pages are in use, a `create_stack` that returns a
region asks `os::guard_memory` exactly once to protect as inaccessible the
band that starts at the region's lowest address `stack_base - stack_size`
(the base of the reservation) and whose length is `(StackYellowPages +
StackRedPages) * page_size`; when that call succeeds the band is protected
and nothing is warned about, when it fails a warning is issued and nothing is
protected. The guard-zone overhead that was added to the requested size is
`(StackShadowPages + StackRedPages + StackYellowPages) * page_size`: the
region's size is the requested size (the default one for a request `<= 0`)
plus that overhead, as the code computes it on machine integers, and the
exact sum where nothing wraps. So the shadow pages enlarge the region but are
not part of the band. -/
theorem create_stack_guard_band (P : Platform) (O : Oracle) (thread : JavaThread)
    (size : Int) (w : World)
    (hguard : P.uses_stack_guard_pages = true)
    (hret : (CoroutineStack.create_stack P O thread size w).1 ≠ NULL) :
    ∃ (s : CoroutineStack) (evs : List Event),
      (CoroutineStack.create_stack P O thread size w).2.stackObjs
        (CoroutineStack.create_stack P O thread size w).1 = some s ∧
      (CoroutineStack.create_stack P O thread size w).2.trace = w.trace ++ evs ∧
      s._stack_size = P.toUintx ((if size ≤ 0 then P.DefaultCoroutineStackSize else size) +
        ((toUint ((toUint (P.StackShadowPages + P.StackRedPages + P.StackYellowPages) : Int)
          * P.vm_page_size) : Nat) : Int)) ∧
      (0 ≤ P.StackShadowPages + P.StackRedPages + P.StackYellowPages →
        P.StackShadowPages + P.StackRedPages + P.StackYellowPages < 2 ^ 32 →
        0 ≤ (P.StackShadowPages + P.StackRedPages + P.StackYellowPages) * P.vm_page_size →
        (P.StackShadowPages + P.StackRedPages + P.StackYellowPages) * P.vm_page_size < 2 ^ 32 →
        0 ≤ (if size ≤ 0 then P.DefaultCoroutineStackSize else size) +
          (P.StackShadowPages + P.StackRedPages + P.StackYellowPages) * P.vm_page_size →
        (if size ≤ 0 then P.DefaultCoroutineStackSize else size) +
          (P.StackShadowPages + P.StackRedPages + P.StackYellowPages) * P.vm_page_size
            < (P.addrSpace : Int) →
        (s._stack_size : Int) = (if size ≤ 0 then P.DefaultCoroutineStackSize else size) +
          (P.StackShadowPages + P.StackRedPages + P.StackYellowPages) * P.vm_page_size) ∧
      evs.filter Event.isGuard =
        [Event.guard_memory (P.ptr_sub s._stack_base s._stack_size)
          (P.toUintx ((P.StackYellowPages + P.StackRedPages) * P.vm_page_size))
          (O.guard_memory (P.ptr_sub s._stack_base s._stack_size)
            (P.toUintx ((P.StackYellowPages + P.StackRedPages) * P.vm_page_size)))] ∧
      (O.guard_memory (P.ptr_sub s._stack_base s._stack_size)
          (P.toUintx ((P.StackYellowPages + P.StackRedPages) * P.vm_page_size)) = true →
        evs.filter Event.isProtection =
          [Event.guard_memory (P.ptr_sub s._stack_base s._stack_size)
            (P.toUintx ((P.StackYellowPages + P.StackRedPages) * P.vm_page_size)) true] ∧
        evs.filter Event.isWarning = []) ∧
      (O.guard_memory (P.ptr_sub s._stack_base s._stack_size)
          (P.toUintx ((P.StackYellowPages + P.StackRedPages) * P.vm_page_size)) = false →
        evs.filter Event.isProtection = [] ∧
        Event.warning Warning.protect_failed ∈ evs) ∧
      (0 ≤ (P.StackYellowPages + P.StackRedPages) * P.vm_page_size →
        (P.StackYellowPages + P.StackRedPages) * P.vm_page_size < (P.addrSpace : Int) →
        ((P.toUintx ((P.StackYellowPages + P.StackRedPages) * P.vm_page_size) : Nat) : Int) =
          (P.StackYellowPages + P.StackRedPages) * P.vm_page_size) ∧
      (s._stack_base < P.addrSpace →
        P.ptr_sub s._stack_base s._stack_size = s._reserved_space.base ∧
        s._reserved_space.base ≠ NULL ∧
        s._stack_base = s._reserved_space.base + s._stack_size) := by
  obtain ⟨hnew, hok⟩ := create_stack_nonnull P O thread size w hret
  obtain ⟨hsz, hbase, hnn⟩ := created_region_size P O thread size hok
  have hreq : CoroutineStack.requested_size P size =
      (if size ≤ 0 then P.DefaultCoroutineStackSize else size) := rfl
  rw [hreq] at hsz hbase
  rw [create_stack_success P O thread size w hnew hok]
  refine ⟨CoroutineStack.created_region P O thread size, _, by simp, rfl, ?_, ?_, ?_, ?_, ?_,
    ?_, ?_⟩
  · rw [hsz]
    rfl
  · intro h1 h2 h3 h4 h5 h6
    rw [hsz]
    exact real_stack_size_exact P _ h1 h2 h3 h4 h5 h6
  · simp only [List.filter_append, reserve_events_no_guard,
      guard_events_guard P O _ hguard]
    simp [Event.isGuard, CoroutineStack.guard_len]
  · intro hg
    have hge := guard_events_protected P O (CoroutineStack.created_region P O thread size)
      hguard hg
    simp only [List.filter_append, reserve_events_no_protection, reserve_events_no_warning, hge]
    simp [Event.isProtection, Event.isWarning, CoroutineStack.guard_len]
  · intro hg
    obtain ⟨hwarn, hnone⟩ :=
      guard_events_unprotected P O (CoroutineStack.created_region P O thread size) hguard hg
    refine ⟨?_, ?_⟩
    · simp only [List.filter_append, reserve_events_no_protection, hnone]
      simp [Event.isProtection]
    · simp only [List.mem_append]
      exact Or.inl (Or.inr hwarn)
  · intro h1 h2
    simp only [Platform.toUintx]
    rw [Int.emod_eq_of_lt h1 h2, Int.toNat_of_nonneg h1]
  · intro hlt
    have hres : (CoroutineStack.created_region P O thread size)._reserved_space =
        CoroutineStack.reservation P O size := rfl
    rw [hres]
    refine ⟨?_, hnn, ?_⟩
    · rw [ptr_sub_eq P _ _ (by omega) hlt]
      omega
    · omega

/-- Witness of C9, amended, on `exPlatform`: the region for a request of
`65536` bytes has `65536 + 4 * 4096` bytes, and the only band protected is the
one of `3 * 4096` bytes at its lowest address `1048576`. -/
theorem create_stack_guard_band_witness :
    exPlatform.uses_stack_guard_pages = true ∧
    (CoroutineStack.create_stack exPlatform exOracle exThread 65536 exWorld).1 ≠ NULL ∧
    ∃ (s : CoroutineStack) (evs : List Event),
      (CoroutineStack.create_stack exPlatform exOracle exThread 65536 exWorld).2.stackObjs
        (CoroutineStack.create_stack exPlatform exOracle exThread 65536 exWorld).1 = some s ∧
      (CoroutineStack.create_stack exPlatform exOracle exThread 65536 exWorld).2.trace
        = exWorld.trace ++ evs ∧
      (s._stack_size : Int) = 65536 + (1 + 1 + 2) * 4096 ∧
      evs.filter Event.isProtection =
        [Event.guard_memory (exPlatform.ptr_sub s._stack_base s._stack_size)
          (exPlatform.toUintx ((2 + 1) * 4096)) true] ∧
      exPlatform.ptr_sub s._stack_base s._stack_size = s._reserved_space.base := by
  have hret : (CoroutineStack.create_stack exPlatform exOracle exThread 65536 exWorld).1
      ≠ NULL := by decide
  obtain ⟨s, evs, h1, h2, _, h4, _, h6, _, _, h9⟩ :=
    create_stack_guard_band exPlatform exOracle exThread 65536 exWorld rfl hret
  have hbase : s._stack_base < exPlatform.addrSpace := by
    have hs : s = CoroutineStack.created_region exPlatform exOracle exThread 65536 := by
      have h1' : (CoroutineStack.create_stack exPlatform exOracle exThread 65536
          exWorld).2.stackObjs
          (CoroutineStack.create_stack exPlatform exOracle exThread 65536 exWorld).1
          = some (CoroutineStack.created_region exPlatform exOracle exThread 65536) := by
        decide
      rw [h1'] at h1
      exact (Option.some.inj h1).symm
    rw [hs]
    decide
  exact ⟨rfl, hret, s, evs, h1, h2,
    h4 (by decide) (by decide) (by decide) (by decide) (by decide) (by decide),
    (h6 rfl).1, (h9 hbase).1⟩

/-- C10: on a region whose `last_sp` is not `NULL` and whose saved frame
pointer `last_sp[0]` is not `NULL`, `CoroutineStack::frames_do` walks the
stream that starts at the frame (sp = `last_sp` + 2 words, fp = word at
`last_sp[0]`, pc = word at `last_sp[1]`): when that stream is exhausted after
`n` senders and the fuel allows `n + 2` tests of the loop condition, the call
returns having invoked the visitor once on each of the `n + 1` frames, in
stream order, and on nothing else. The first frame visited is the frame
`CoroutineStack::last_frame` returns. Memory and the region objects (hence
`last_sp`) are as before. -/
theorem stack_frames_do_walk (P : Platform) (F : FrameModel) (this : CoroutineStack)
    (fc : FrameClosure) (w : World) (n fuel : Nat) (coro : Nat) (map : RegisterMap)
    (hsp : this._last_sp ≠ NULL) (hfp : w.mem this._last_sp ≠ NULL)
    (hrange : this._last_sp + 2 * P.wordSize < P.addrSpace)
    (hend : F.stream_ends n (this.saved_frame P w) (this.saved_map P) = true)
    (hfuel : n + 2 ≤ fuel) :
    this.frames_do P F fuel fc w =
      (.ok (), { w with
        trace := w.trace ++
          (F.stream_frames n (this.saved_frame P w) (this.saved_map P)).map
            (fun p => fc.frames_do p.1 p.2) }) ∧
    (F.stream_frames n (this.saved_frame P w) (this.saved_map P)).length = n + 1 ∧
    (F.stream_frames n (this.saved_frame P w) (this.saved_map P)).head? =
      some (this.saved_frame P w, this.saved_map P) ∧
    this.last_frame P coro map w = .ok (this.saved_frame P w) ∧
    (this.frames_do P F fuel fc w).2.mem = w.mem ∧
    (this.frames_do P F fuel fc w).2.stackObjs = w.stackObjs := by
  have e1 : P.ptr_add this._last_sp P.wordSize = this._last_sp + P.wordSize :=
    ptr_add_eq P _ _ (by omega)
  have e2 : P.ptr_add this._last_sp (2 * P.wordSize) = this._last_sp + 2 * P.wordSize :=
    ptr_add_eq P _ _ hrange
  have hwalk := stack_frames_do_eq P F this fc w n fuel hsp hfp hrange hend hfuel
  refine ⟨hwalk, ?_, ?_, ?_, ?_, ?_⟩
  · clear hend hwalk hfuel
    generalize this.saved_frame P w = fr
    generalize this.saved_map P = m
    induction n generalizing fr m with
    | zero => rfl
    | succ k ih => simp [FrameModel.stream_frames, ih]
  · cases n <;> rfl
  · simp only [CoroutineStack.last_frame, hfp, if_false, e1, e2, CoroutineStack.saved_frame]
  · rw [hwalk]
  · rw [hwalk]

/-- Witness of C10: the region parked at `8000` in `exParkedWorld` has three
frames under `exFrames`; the walk visits them callee to caller. -/
theorem stack_frames_do_walk_witness :
    exParked.frames_do exPlatform exFrames 4 (FrameClosure.other 1) exParkedWorld =
      (.ok (), { exParkedWorld with trace :=
        [Event.frame_closure 1 { sp := 8016, fp := 8150, pc := 4242 }
            (exParked.saved_map exPlatform),
          Event.frame_closure 1 { sp := 8048, fp := 8182, pc := 4243 }
            (exParked.saved_map exPlatform),
          Event.frame_closure 1 { sp := 8080, fp := 8214, pc := 4244 }
            (exParked.saved_map exPlatform)] }) ∧
    exParked.last_frame exPlatform 500 (exParked.saved_map exPlatform) exParkedWorld =
      .ok { sp := 8016, fp := 8150, pc := 4242 } :=
  ⟨(stack_frames_do_walk exPlatform exFrames exParked (FrameClosure.other 1) exParkedWorld
      2 4 500 (exParked.saved_map exPlatform)
      (by decide) (by decide) (by decide) (by decide) (by decide)).1,
   (stack_frames_do_walk exPlatform exFrames exParked (FrameClosure.other 1) exParkedWorld
      2 4 500 (exParked.saved_map exPlatform)
      (by decide) (by decide) (by decide) (by decide) (by decide)).2.2.2.1⟩

/-- C8, as stated, fails: the coroutine `exCoroutine _onstack 777` is
`_onstack` with the non-null handle arena `777`, but its region in `exWorld`
has a `NULL` `last_sp`; the frame walk of `oops_do` fails the assertion of
`CoroutineStack::frames_do`, and the handle arena is not walked. -/
theorem coroutine_oops_do_handle_area_counterexample :
    (exCoroutine CoroutineState._onstack 777)._state = CoroutineState._onstack ∧
    (exCoroutine CoroutineState._onstack 777)._handle_area ≠ NULL ∧
    exWorld.stackObjs (exCoroutine CoroutineState._onstack 777)._stack = some exStack ∧
    exStack._last_sp = NULL ∧
    (exCoroutine CoroutineState._onstack 777).oops_do exPlatform exFrames 4 5 6 7 exWorld
      = (.error Fatal.assert_failed, exWorld) ∧
    ((exCoroutine CoroutineState._onstack 777).oops_do exPlatform exFrames 4 5 6 7
      exWorld).2.trace.filter Event.isHandleArea = [] := by
  refine ⟨rfl, by decide, rfl, rfl, rfl, rfl⟩

/-- C8, amended: `Coroutine::oops_do` walks the coroutine's handle arena if
and only if the state is `_onstack`, `_handle_area` is not `NULL` and the
frame walk returns, for which the region's `last_sp` must not be `NULL`.

* For a `_current` or `_dead` coroutine it returns with nothing recorded: no
  frame and no handle-arena reference.
* For an `_onstack` coroutine whose region has a `NULL` `last_sp` the
  assertion of `CoroutineStack::frames_do` fails and nothing is recorded.
* For an `_onstack` coroutine whose region has a non-null `last_sp` it
  returns: with a `NULL` saved frame pointer for every fuel, otherwise as soon
  as the fuel covers the `n + 1` frames of the stream; the calls recorded are
  the `fr->oops_do(f, cld_f, cf, map)` of each frame, in stream order,
  followed by exactly one `_handle_area->oops_do(f)` with the same `f` when
  `_handle_area` is not `NULL`, and by nothing otherwise.
* Whatever the fuel and the outcome, a recorded walk of a handle arena means
  that the state is `_onstack`, `_handle_area` is not `NULL`, the frame walk
  returned, and that walk is the single `_handle_area->oops_do(f)`. -/
theorem coroutine_oops_do_handle_area (P : Platform) (F : FrameModel)
    (this : Coroutine) (f cld_f cf : Nat) (w : World) :
    (this._state ≠ CoroutineState._onstack →
      ∀ fuel : Nat, this.oops_do P F fuel f cld_f cf w = (.ok (), w)) ∧
    (this._state = CoroutineState._onstack → ∀ s : CoroutineStack,
      w.stackObjs this._stack = some s →
        (s._last_sp = NULL → ∀ fuel : Nat,
          this.oops_do P F fuel f cld_f cf w = (.error Fatal.assert_failed, w)) ∧
        (s._last_sp ≠ NULL → w.mem s._last_sp = NULL → ∀ fuel : Nat,
          this.oops_do P F fuel f cld_f cf w =
            (.ok (), { w with
              trace := w.trace ++
                if this._handle_area ≠ NULL then
                  [Event.handle_area_oops_do this._handle_area f]
                else [] })) ∧
        (s._last_sp ≠ NULL → w.mem s._last_sp ≠ NULL →
          s._last_sp + 2 * P.wordSize < P.addrSpace →
          ∀ n fuel : Nat, F.stream_ends n (s.saved_frame P w) (s.saved_map P) = true →
            n + 2 ≤ fuel →
            this.oops_do P F fuel f cld_f cf w =
              (.ok (), { w with
                trace := w.trace ++
                  ((F.stream_frames n (s.saved_frame P w) (s.saved_map P)).map
                      (fun p => Event.frame_oops_do p.1 f cld_f cf p.2) ++
                    if this._handle_area ≠ NULL then
                      [Event.handle_area_oops_do this._handle_area f]
                    else []) }))) ∧
    (∀ fuel : Nat,
      ((this.oops_do P F fuel f cld_f cf w).2.trace.drop w.trace.length).filter
          Event.isHandleArea ≠ [] →
        this._state = CoroutineState._onstack ∧ this._handle_area ≠ NULL ∧
        (this.frames_do P F fuel (FrameClosure.oops_do_Closure f cld_f cf) w).1 = .ok () ∧
        ((this.oops_do P F fuel f cld_f cf w).2.trace.drop w.trace.length).filter
          Event.isHandleArea = [Event.handle_area_oops_do this._handle_area f]) := by
  refine ⟨?_, ?_, ?_⟩
  · intro hst fuel
    have hfd : this.frames_do P F fuel (FrameClosure.oops_do_Closure f cld_f cf) w
        = (.ok (), w) := by
      unfold Coroutine.frames_do
      cases hs : this._state
      · exact absurd hs hst
      · rfl
      · rfl
    simp only [Coroutine.oops_do, hfd]
    simp [hst]
  · intro hst s hs
    have hdisp : ∀ fuel : Nat,
        this.frames_do P F fuel (FrameClosure.oops_do_Closure f cld_f cf) w =
          s.frames_do P F fuel (FrameClosure.oops_do_Closure f cld_f cf) w := by
      intro fuel
      simp only [Coroutine.frames_do, hst, hs]
    refine ⟨?_, ?_, ?_⟩
    · intro hsp fuel
      have hfd := hdisp fuel
      rw [stack_frames_do_null P F s _ w fuel hsp] at hfd
      simp only [Coroutine.oops_do, hfd]
    · intro hsp hfp fuel
      have hfd := hdisp fuel
      rw [stack_frames_do_sentinel P F s _ w fuel hsp hfp] at hfd
      simp only [Coroutine.oops_do, hfd, hst, true_and]
      by_cases ha : this._handle_area ≠ NULL
      · simp only [if_pos ha, World.emit]
      · simp only [if_neg ha, List.append_nil]
    · intro hsp hfp hrange n fuel hend hfuel
      have hfd := hdisp fuel
      rw [stack_frames_do_eq P F s _ w n fuel hsp hfp hrange hend hfuel] at hfd
      have hmap : (F.stream_frames n (s.saved_frame P w) (s.saved_map P)).map
          (fun p => (FrameClosure.oops_do_Closure f cld_f cf).frames_do p.1 p.2)
          = (F.stream_frames n (s.saved_frame P w) (s.saved_map P)).map
              (fun p => Event.frame_oops_do p.1 f cld_f cf p.2) := rfl
      rw [hmap] at hfd
      simp only [Coroutine.oops_do, hfd, hst, true_and]
      by_cases ha : this._handle_area ≠ NULL
      · simp only [if_pos ha, World.emit, List.append_assoc]
      · simp only [if_neg ha, List.append_nil]
  · intro fuel hne
    obtain ⟨visits, hok, hfail⟩ := oops_do_after_walk P F fuel this f cld_f cf w
    have hnil := frame_oops_do_no_arena f cld_f cf visits
    by_cases hr : (this.frames_do P F fuel (FrameClosure.oops_do_Closure f cld_f cf) w).1
        = .ok ()
    · have ht := hok hr
      rw [ht, List.drop_left, List.filter_append, hnil, List.nil_append] at hne ⊢
      by_cases hc : this._state = CoroutineState._onstack ∧ this._handle_area ≠ NULL
      · rw [if_pos hc]
        exact ⟨hc.1, hc.2, hr, by simp [Event.isHandleArea]⟩
      · rw [if_neg hc] at hne
        exact absurd rfl hne
    · have ht := hfail hr
      rw [ht, List.drop_left, hnil] at hne
      exact absurd rfl hne

/-- Witness of C8, amended, on `exParkedWorld`: a parked coroutine with handle
arena `777` has its three frames visited and then the arena walked once; a
running one with the same arena records nothing. -/
theorem coroutine_oops_do_handle_area_witness :
    (exCoroutine CoroutineState._onstack 777).oops_do exPlatform exFrames 4 5 6 7
        exParkedWorld =
      (.ok (), { exParkedWorld with
        trace :=
          [Event.frame_oops_do { sp := 8016, fp := 8150, pc := 4242 } 5 6 7
              (exParked.saved_map exPlatform),
            Event.frame_oops_do { sp := 8048, fp := 8182, pc := 4243 } 5 6 7
              (exParked.saved_map exPlatform),
            Event.frame_oops_do { sp := 8080, fp := 8214, pc := 4244 } 5 6 7
              (exParked.saved_map exPlatform),
            Event.handle_area_oops_do 777 5] }) ∧
    (exCoroutine CoroutineState._current 777).oops_do exPlatform exFrames 4 5 6 7 exParkedWorld
      = (.ok (), exParkedWorld) :=
  ⟨((coroutine_oops_do_handle_area exPlatform exFrames
      (exCoroutine CoroutineState._onstack 777) 5 6 7 exParkedWorld).2.1 rfl exParked rfl).2.2
      (by decide) (by decide) (by decide) 2 4 (by decide) (by decide),
   (coroutine_oops_do_handle_area exPlatform exFrames
      (exCoroutine CoroutineState._current 777) 5 6 7 exParkedWorld).1 (by decide) 4⟩

end CoroutineVM
